import Mathlib

/-!
# RiV-mesh: link registry, DHT snapshot and TUN adapter

A shallow embedding of

* `src/core/link_other.go`  (`links.call`, `links.listen`),
* `src/admin/getdht.go`     (`AdminSocket.getDHTHandler`),
* `src/tun/tun.go`          (`getSupportedMTU`, `TunAdapter.MTU`, `_start`, `_stop`),
* `src/tun/tun_windows.go`  (`setup`, `setupAddress`, `setupMTU`),

together with the parts of the Go standard library those functions call
(`encoding/hex`, `strconv.ParseUint`, `net.SplitHostPort`, `net.ParseIP`,
`sort.SliceStable`, `strings.Compare`).

Go strings are modelled by Lean strings read as their sequence of characters.
Every library routine modelled here either works on ASCII delimiters only or
rejects any non-ASCII input, so reading characters instead of bytes changes no
result.  Goroutines launched by a function (`go f()`) and calls into
collaborators are recorded, in program order, in an effect list returned next
to the function's result.
-/

namespace RiVMesh

deriving instance DecidableEq for Except

/-! ## Go standard library -/

namespace hex

/-- Errors of `encoding/hex`: `InvalidByteError` and `ErrLength`. -/
inductive DecodeError where
  | invalidByte (c : Char)
  | errLength
  deriving DecidableEq, Repr

/-- The `reverseHexTable` lookup of `encoding/hex`: the value of a hex digit,
`none` where the table holds `0xff`. -/
def fromHexChar (c : Char) : Option Nat :=
  if '0' ≤ c ∧ c ≤ '9' then some (c.toNat - '0'.toNat)
  else if 'a' ≤ c ∧ c ≤ 'f' then some (c.toNat - 'a'.toNat + 10)
  else if 'A' ≤ c ∧ c ≤ 'F' then some (c.toNat - 'A'.toNat + 10)
  else none

/-- The loop of `hex.Decode`: pairs of digits are read left to right, the first
bad digit is reported, and a dangling last character is checked for validity
before the length error is raised.  The bytes decoded before an error are
dropped, as every caller here discards them. -/
def decodeChars : List Char → Except DecodeError (List Nat)
  | [] => .ok []
  | [p] =>
    match fromHexChar p with
    | none => .error (.invalidByte p)
    | some _ => .error .errLength
  | p :: q :: rest =>
    match fromHexChar p with
    | none => .error (.invalidByte p)
    | some a =>
      match fromHexChar q with
      | none => .error (.invalidByte q)
      | some b =>
        match decodeChars rest with
        | .error e => .error e
        | .ok bs => .ok ((a * 16 + b) :: bs)

/-- Go `hex.DecodeString`. -/
def DecodeString (s : String) : Except DecodeError (List Nat) :=
  decodeChars s.data

/-- The digit table `"0123456789abcdef"` of `encoding/hex`. -/
def hextable : List Char := "0123456789abcdef".data

/-- One digit of the table. -/
def hexDigit (n : Nat) : Char := hextable.getD n '0'

/-- Go `hex.EncodeToString`: two lower-case digits per byte. -/
def EncodeToString (bs : List Nat) : String :=
  String.mk (bs.flatMap fun b => [hexDigit ((b % 256) / 16), hexDigit (b % 16)])

end hex

namespace strconv

/-- The two error kinds of `strconv.NumError`: `ErrSyntax` and `ErrRange`. -/
inductive NumError where
  | syntaxError
  | rangeError
  deriving DecidableEq, Repr

/-- The digit loop of `strconv.ParseUint(s, 10, 8)`: `cutoff = maxUint64/10 + 1`,
`maxVal = 1<<8 - 1`.  A letter is a digit of value at least ten, which base ten
refuses like any other non-digit. -/
def parseUint8Loop : List Char → Nat → Except NumError Nat
  | [], n => .ok n
  | c :: cs, n =>
    if '0' ≤ c ∧ c ≤ '9' then
      let d := c.toNat - '0'.toNat
      if n ≥ (2 ^ 64 - 1) / 10 + 1 then .error .rangeError
      else
        let n1 := n * 10 + d
        if n1 > 255 then .error .rangeError
        else parseUint8Loop cs n1
    else .error .syntaxError

/-- Go `strconv.ParseUint(s, 10, 8)`. -/
def ParseUint8 (s : String) : Except NumError Nat :=
  if s = "" then .error .syntaxError else parseUint8Loop s.data 0

end strconv

namespace net

/-- Index of the first occurrence of `c` (`bytealg.IndexByteString`). -/
def indexByte (s : List Char) (c : Char) : Option Nat :=
  match s with
  | [] => none
  | x :: xs => if x = c then some 0 else (indexByte xs c).map (· + 1)

/-- Index of the last occurrence of `c` (`bytealg.LastIndexByteString`). -/
def lastIndexByte (s : List Char) (c : Char) : Option Nat :=
  match s with
  | [] => none
  | x :: xs =>
    match lastIndexByte xs c with
    | some i => some (i + 1)
    | none => if x = c then some 0 else none

/-- The failures of `net.SplitHostPort`, by their `AddrError` text. -/
inductive AddrError where
  | missingPort
  | tooManyColons
  | missingBracket
  | unexpectedOpen
  | unexpectedClose
  deriving DecidableEq, Repr

/-- Go `net.SplitHostPort` on the characters of `hostport`. -/
def splitHostPortChars (hostport : List Char) : Except AddrError (List Char × List Char) :=
  match lastIndexByte hostport ':' with
  | none => .error .missingPort
  | some i =>
    let bracketed : Except AddrError (List Char × Nat × Nat) :=
      if hostport.head? = some '[' then
        match indexByte hostport ']' with
        | none => .error .missingBracket
        | some e =>
          if e + 1 = hostport.length then .error .missingPort
          else if e + 1 = i then .ok ((hostport.take e).drop 1, 1, e + 1)
          else if hostport.get? (e + 1) = some ':' then .error .tooManyColons
          else .error .missingPort
      else
        let host := hostport.take i
        if (indexByte host ':').isSome then .error .tooManyColons
        else .ok (host, 0, 0)
    match bracketed with
    | .error e => .error e
    | .ok (host, j, k) =>
      if (indexByte (hostport.drop j) '[').isSome then .error .unexpectedOpen
      else if (indexByte (hostport.drop k) ']').isSome then .error .unexpectedClose
      else .ok (host, hostport.drop (i + 1))

/-- Go `net.SplitHostPort`. -/
def SplitHostPort (hostport : String) : Except AddrError (String × String) :=
  match splitHostPortChars hostport.data with
  | .error e => .error e
  | .ok (h, p) => .ok (String.mk h, String.mk p)

/-- The overflow guard `big` of `net/parse.go`. -/
def big : Nat := 0xFFFFFF

/-- The loop of `dtoi`: decimal digits are consumed while the value stays below
`big`; the result is (value, characters consumed, ok). -/
def dtoiLoop : List Char → Nat → Nat → Nat × Nat × Bool
  | [], n, i => (n, i, true)
  | c :: cs, n, i =>
    if '0' ≤ c ∧ c ≤ '9' then
      let n1 := n * 10 + (c.toNat - '0'.toNat)
      if n1 ≥ big then (big, i, false) else dtoiLoop cs n1 (i + 1)
    else (n, i, true)

/-- Go `dtoi` of `net/parse.go`. -/
def dtoi (s : List Char) : Nat × Nat × Bool :=
  match dtoiLoop s 0 0 with
  | (n, i, ok) => if ok ∧ i = 0 then (0, 0, false) else (n, i, ok)

/-- The loop of `xtoi`: hex digits are consumed while the value stays below `big`. -/
def xtoiLoop : List Char → Nat → Nat → Nat × Nat × Bool
  | [], n, i => (n, i, true)
  | c :: cs, n, i =>
    match hex.fromHexChar c with
    | none => (n, i, true)
    | some d =>
      let n1 := n * 16 + d
      if n1 ≥ big then (0, i, false) else xtoiLoop cs n1 (i + 1)

/-- Go `xtoi` of `net/parse.go`. -/
def xtoi (s : List Char) : Nat × Nat × Bool :=
  match xtoiLoop s 0 0 with
  | (n, i, ok) => if ok ∧ i = 0 then (0, i, false) else (n, i, ok)

/-- The loop of `parseIPv4`, `i` counting the octets read so far (`fuel = 4 - i`). -/
def parseIPv4Loop : Nat → Bool → List Char → List Nat → Option (List Nat)
  | 0, _, s, p => if s.length ≠ 0 then none else some p
  | fuel + 1, first, s, p =>
    if s.length = 0 then none
    else
      let afterDot : Option (List Char) :=
        if first then some s
        else if s.head? ≠ some '.' then none else some (s.drop 1)
      match afterDot with
      | none => none
      | some s1 =>
        match dtoi s1 with
        | (n, c, ok) =>
          if !ok ∨ n > 0xFF then none
          else if c > 1 ∧ s1.head? = some '0' then none
          else parseIPv4Loop fuel false (s1.drop c) (p ++ [n])

/-- Go `IPv4(a, b, c, d)`: the 16-byte form of an IPv4 address. -/
def v4InV6Head : List Nat := [0, 0, 0, 0, 0, 0, 0, 0, 0, 0, 0xff, 0xff]

/-- Go `parseIPv4`. -/
def parseIPv4 (s : List Char) : Option (List Nat) :=
  (parseIPv4Loop 4 true s []).map (v4InV6Head ++ ·)

/-- The main loop of `parseIPv6`.  `ip` holds the `i = ip.length` bytes written so
far, `ellipsis` the position of `::` if seen; the loop runs while `i < 16` and
every pass that continues writes two bytes, so `fuel = (16 - i) / 2`.  The result
is (bytes, position of the ellipsis, rest of the string), or `none` where the Go
code returns nil inside the loop. -/
def parseIPv6Loop : Nat → List Char → List Nat → Option Nat →
    Option (List Nat × Option Nat × List Char)
  | 0, s, ip, ellipsis => some (ip, ellipsis, s)
  | fuel + 1, s, ip, ellipsis =>
    match xtoi s with
    | (n, c, ok) =>
      if !ok ∨ n > 0xFFFF then none
      else if c < s.length ∧ s.get? c = some '.' then
        if ellipsis.isNone ∧ ip.length ≠ 16 - 4 then none
        else if ip.length + 4 > 16 then none
        else
          match parseIPv4 s with
          | none => none
          | some ip4 => some (ip ++ ip4.drop 12, ellipsis, [])
      else
        let ip1 := ip ++ [n / 256 % 256, n % 256]
        let s1 := s.drop c
        if s1.length = 0 then some (ip1, ellipsis, s1)
        else if s1.head? ≠ some ':' ∨ s1.length = 1 then none
        else
          let s2 := s1.drop 1
          if s2.head? = some ':' then
            if ellipsis.isSome then none
            else
              let s3 := s2.drop 1
              if s3.length = 0 then some (ip1, some ip1.length, s3)
              else parseIPv6Loop fuel s3 ip1 (some ip1.length)
          else parseIPv6Loop fuel s2 ip1 ellipsis

/-- Go `parseIPv6`: optional leading ellipsis, the main loop, then the
expansion of the ellipsis to the missing zero bytes. -/
def parseIPv6 (s : List Char) : Option (List Nat) :=
  let lead : Bool := s.length ≥ 2 ∧ s.head? = some ':' ∧ s.get? 1 = some ':'
  let s0 := if lead then s.drop 2 else s
  let ellipsis0 : Option Nat := if lead then some 0 else none
  if lead ∧ s0.length = 0 then some (List.replicate 16 0)
  else
    match parseIPv6Loop 8 s0 [] ellipsis0 with
    | none => none
    | some (ip, ellipsis, rest) =>
      if rest.length ≠ 0 then none
      else if ip.length < 16 then
        match ellipsis with
        | none => none
        | some e => some (ip.take e ++ List.replicate (16 - ip.length) 0 ++ ip.drop e)
      else if ellipsis.isSome then none
      else some ip

/-- The scan of `net.ParseIP`: the first `.` or `:` decides the family. -/
def parseIPScan (whole : List Char) : List Char → Option (List Nat)
  | [] => none
  | c :: cs =>
    if c = '.' then parseIPv4 whole
    else if c = ':' then parseIPv6 whole
    else parseIPScan whole cs

/-- Go `net.ParseIP` (the `parseIPv4`/`parseIPv6` implementation of Go 1.17 to
1.21): the 16-byte address, `none` for nil. -/
def ParseIP (s : String) : Option (List Nat) :=
  parseIPScan s.data s.data

end net

namespace strings

/-- The three-way comparison behind `strings.Compare`, on characters. -/
def compareChars : List Char → List Char → Int
  | [], [] => 0
  | [], _ :: _ => -1
  | _ :: _, [] => 1
  | a :: as, b :: bs =>
    if a < b then -1 else if b < a then 1 else compareChars as bs

/-- Go `strings.Compare`: `-1`, `0` or `+1`. -/
def Compare (a b : String) : Int := compareChars a.data b.data

end strings

/-! ## `src/core/link_other.go` -/

namespace core

/-- The parts of Go `url.URL` that `call` and `listen` read: `Scheme`, `Host`,
and the pairs `u.Query()` parses out of the raw query, in their order. -/
structure URL where
  Scheme : String
  Host : String
  Query : List (String × String)
  deriving DecidableEq, Repr

/-- Go `u.Query()[k]`: every value given for the key, in order. -/
def URL.queryValues (u : URL) (k : String) : List String :=
  (u.Query.filter fun kv => kv.1 = k).map Prod.snd

/-- Go `u.Query().Get(k)`: the first value given for the key, else `""`. -/
def URL.queryGet (u : URL) (k : String) : String :=
  (u.queryValues k).headD ""

/-- Modelled from the spec: the `linkInfo` type is declared outside
`link_other.go`; the spec gives the identity as
`{transportKind, sourceInterfaceName, hostPort}`, and `call` reads the
transport kind as `info.linkType`. -/
structure linkInfo where
  linkType : String
  sourceInterfaceName : String
  hostPort : String
  deriving DecidableEq, Repr

/-- Modelled from the spec: `linkInfoFor` is defined outside `link_other.go`;
the identity formed from a scheme, a source interface and a host. -/
def linkInfoFor (linkType sintf remote : String) : linkInfo :=
  { linkType := linkType, sourceInterfaceName := sintf, hostPort := remote }

/-- A `keyArray`, `[ed25519.PublicKeySize]byte`, as its list of bytes. -/
abbrev keyArray := List Nat

/-- The length of an ed25519 public key. -/
def PublicKeySize : Nat := 32

/-- Go `var k keyArray; copy(k[:], src)`: the first `PublicKeySize` bytes of
`src` over a zeroed array. -/
def copyKey (src : List Nat) : keyArray :=
  src.take PublicKeySize ++ List.replicate (PublicKeySize - src.length) 0

/-- The `linkOptions` built by `call`: the set of pinned keys (a Go map used
as a set, kept as a duplicate-free list) and the priority. -/
structure linkOptions where
  pinnedEd25519Keys : List keyArray
  priority : Nat
  deriving DecidableEq, Repr

/-- A `*link` stored in the registry. -/
structure link where
  id : Nat
  deriving DecidableEq, Repr

/-- A `*Listener` returned by a backend. -/
structure Listener where
  id : Nat
  deriving DecidableEq, Repr

/-- The errors `call` and `listen` return: the three messages built in
`link_other.go`, and whatever a backend's `listen` reports. -/
inductive Error where
  /-- the message `"pinned key contains invalid hex characters"` -/
  | pinnedKeyInvalidHex
  /-- the message `"priority invalid: %w"` -/
  | priorityInvalid (e : strconv.NumError)
  /-- the message `"unknown call scheme: " + u.Scheme` -/
  | unknownCallScheme (scheme : String)
  /-- the message `"unrecognised scheme %q"` -/
  | unrecognisedScheme (scheme : String)
  /-- an error produced by a backend -/
  | backend (msg : String)
  deriving DecidableEq, Repr

/-- The pair `(*Listener, error)` a `listen` returns. -/
abbrev ListenResult := Option Listener × Option Error

/-- A transport backend (`linkTCP`, `linkTLS`, `linkUNIX`, `linkMPATH`), defined
outside `link_other.go`: its `listen` is a parameter of the model. -/
structure Backend where
  listen : URL → String → ListenResult

/-- The `links` struct: the backends that have a `listen`, and the registry
`_links`, where a `none` link is a connection in progress. -/
structure links where
  tcp : Backend
  tls : Backend
  unix : Backend
  mpath : Backend
  _links : List (linkInfo × Option link)

/-- Modelled from the spec: `isConnectedTo` is defined outside
`link_other.go`; it tells whether the identity already maps to an entry of the
registry (a link, or the placeholder of a dial in progress). -/
def links.isConnectedTo (l : links) (info : linkInfo) : Bool :=
  l._links.any fun e => e.1 = info

/-- A backend dial launched in a goroutine by `call`, with its arguments. -/
inductive DialCall where
  | tcp (u : URL) (options : linkOptions) (sintf : String)
  | socks (u : URL) (options : linkOptions)
  | tls (u : URL) (options : linkOptions) (sintf : String) (tlsSNI : String)
  | unix (u : URL) (options : linkOptions) (sintf : String)
  | mpath (u : URL) (options : linkOptions) (sintf : String)
  deriving DecidableEq, Repr

/-- A backend `listen` invoked by `links.listen`. -/
inductive ListenCall where
  | tcp (u : URL) (sintf : String)
  | tls (u : URL) (sintf : String)
  | unix (u : URL) (sintf : String)
  | mpath (u : URL) (sintf : String)
  deriving DecidableEq, Repr

/-- The loop over `u.Query()["key"]` in `call` (lines 59-67): each value is
hex-decoded, copied into a `keyArray` and added to the set; the first value
that fails to decode ends the call. -/
def pinnedKeys : List String → List keyArray → Except Error (List keyArray)
  | [], acc => .ok acc
  | pubkey :: rest, acc =>
    match hex.DecodeString pubkey with
    | .error _ => .error .pinnedKeyInvalidHex
    | .ok sigPub => pinnedKeys rest (List.insert (copyKey sigPub) acc)

/-- The priority option of `call` (lines 68-74): absent or empty leaves the
priority at zero. -/
def parsePriority (p : String) : Except Error Nat :=
  if p ≠ "" then
    match strconv.ParseUint8 p with
    | .error e => .error (.priorityInvalid e)
    | .ok pi => .ok (pi % 256)
  else .ok 0

/-- The server name computed in `case "tls"` of `call` (lines 95-107). -/
def tlsServerName (u : URL) : String :=
  let sni := u.queryGet "sni"
  let tlsSNI : String :=
    if sni ≠ "" then (if net.ParseIP sni = none then sni else "") else ""
  if tlsSNI = "" then
    match net.SplitHostPort u.Host with
    | .ok (host, _) => if net.ParseIP host = none then host else tlsSNI
    | .error _ => tlsSNI
  else tlsSNI

/-- What `call` yields: the two return values, the dials it launched, and the
`links` value after the call. -/
structure CallResult where
  info : linkInfo
  err : Option Error
  dials : List DialCall
  after : links

/-- Go `links.call`. -/
def links.call (l : links) (u : URL) (sintf : String) : CallResult :=
  let info := linkInfoFor u.Scheme sintf u.Host
  if l.isConnectedTo info then ⟨info, none, [], l⟩
  else
    match pinnedKeys (u.queryValues "key") [] with
    | .error e => ⟨info, some e, [], l⟩
    | .ok keys =>
      match parsePriority (u.queryGet "priority") with
      | .error e => ⟨info, some e, [], l⟩
      | .ok priority =>
        let options : linkOptions := { pinnedEd25519Keys := keys, priority := priority }
        if info.linkType = "tcp" then ⟨info, none, [.tcp u options sintf], l⟩
        else if info.linkType = "socks" then ⟨info, none, [.socks u options], l⟩
        else if info.linkType = "tls" then
          ⟨info, none, [.tls u options sintf (tlsServerName u)], l⟩
        else if info.linkType = "unix" then ⟨info, none, [.unix u options sintf], l⟩
        else if info.linkType = "mpath" then ⟨info, none, [.mpath u options sintf], l⟩
        else ⟨info, some (.unknownCallScheme u.Scheme), [], l⟩

/-- What `listen` yields: the pair it returns and the backend calls it made. -/
structure ListenOutcome where
  result : ListenResult
  calls : List ListenCall

/-- Go `links.listen`. -/
def links.listen (l : links) (u : URL) (sintf : String) : ListenOutcome :=
  if u.Scheme = "tcp" then ⟨l.tcp.listen u sintf, [.tcp u sintf]⟩
  else if u.Scheme = "tls" then ⟨l.tls.listen u sintf, [.tls u sintf]⟩
  else if u.Scheme = "unix" then ⟨l.unix.listen u sintf, [.unix u sintf]⟩
  else if u.Scheme = "mpath" then ⟨l.mpath.listen u sintf, [.mpath u sintf]⟩
  else ⟨(none, some (.unrecognisedScheme u.Scheme)), []⟩

end core

/-! ## `src/admin/getdht.go` -/

namespace sort

/-- Go `sort.SliceStable`: a stable sort by `less`.  It is modelled by the
stable insertion sort (an element is put in front of the first element of the
sorted rest that is not less than it), which is what the library runs on short
slices and whose result every stable sort shares. -/
def SliceStable {α : Type} (less : α → α → Bool) (l : List α) : List α :=
  l.insertionSort fun a b => less b a = false

end sort

namespace admin

/-- A record of `core.GetDHT()`: the fields `getDHTHandler` reads. -/
structure DHTEntryInfo where
  Key : List Nat
  Port : Nat
  Rest : Nat
  deriving DecidableEq, Repr

/-- The core as `getDHTHandler` uses it: the records `GetDHT()` returns, in the
order it returns them, and the addressing function `AddrForKey`. -/
structure Core where
  GetDHT : List DHTEntryInfo
  AddrForKey : List Nat → List Nat

/-- The `AdminSocket`, as far as the handler reads it. -/
structure AdminSocket where
  core : Core

/-- Go `GetDHTRequest`. -/
structure GetDHTRequest where
  deriving DecidableEq, Repr

/-- Go `DHTEntry`. -/
structure DHTEntry where
  IPAddress : String
  PublicKey : String
  Port : Nat
  Rest : Nat
  deriving DecidableEq, Repr

/-- Go `GetDHTResponse`. -/
structure GetDHTResponse where
  DHT : List DHTEntry
  deriving DecidableEq, Repr

/-- The entry appended for one record in the loop of `getDHTHandler`;
`ipString` is `net.IP.String`. -/
def entryFor (ipString : List Nat → String) (a : AdminSocket) (d : DHTEntryInfo) : DHTEntry :=
  { IPAddress := ipString (a.core.AddrForKey d.Key)
    PublicKey := hex.EncodeToString d.Key
    Port := d.Port
    Rest := d.Rest }

/-- The `less` closure handed to `sort.SliceStable`. -/
def lessByKey (x y : DHTEntry) : Bool :=
  strings.Compare x.PublicKey y.PublicKey < 0

/-- Go `AdminSocket.getDHTHandler`: the returned error and the response. -/
def getDHTHandler (ipString : List Nat → String) (a : AdminSocket)
    (_req : GetDHTRequest) (_res : GetDHTResponse) : Option String × GetDHTResponse :=
  let dht := a.core.GetDHT
  let entries := dht.foldl (fun acc d => acc ++ [entryFor ipString a d]) []
  (none, { DHT := sort.SliceStable lessByKey entries })

end admin

/-! ## `src/defaults`, `src/tun/tun.go`, `src/tun/tun_windows.go` -/

namespace defaults

/-- The TUN fields of `platformDefaultParameters`. -/
structure platformDefaultParameters where
  MaximumIfMTU : Nat
  DefaultIfMTU : Nat
  DefaultIfName : String
  deriving DecidableEq, Repr

/-- The TUN part of `getDefaults` in `defaults_freebsd.go`. -/
def getDefaults : platformDefaultParameters :=
  { MaximumIfMTU := 32767, DefaultIfMTU := 32767, DefaultIfName := "/dev/tun0" }

end defaults

namespace tun

open defaults

/-- The errors of the TUN module. -/
inductive Error where
  /-- the message `"TUN module is already started"` -/
  | alreadyStarted
  /-- the message `"Can't configure MTU as TUN adapter is not present"` -/
  | mtuNotPresent
  /-- the message `"Can't configure IPv6 address as TUN adapter is not present"` -/
  | addressNotPresent
  /-- the message `"unable to get NativeTUN"` -/
  | noNativeTUN
  /-- the error `windows.ERROR_OBJECT_ALREADY_EXISTS` -/
  | objectAlreadyExists
  /-- any other error of the operating system or a library -/
  | os (code : Nat)
  deriving DecidableEq, Repr

/-- A `tun.Device` as the adapter observes it: what `Name()` and `MTU()` return
(`none` for an error), whether it is a `*NativeTun`, and what `Close()` returns. -/
structure Device where
  id : Nat
  name : Option String
  native : Bool
  mtu : Option Int
  close : Option Error
  deriving DecidableEq, Repr

/-- The calls out of the adapter, in program order. -/
inductive Effect where
  | logDebug
  | logWarn
  | logError
  | sleep (seconds : Nat)
  | createTUN (ifname : String) (mtu : Int)
  | setIPAddresses
  | cleanupAddresses
  | forceMTU (mtu : Int)
  | ipfamilySet
  | rwcSetMTU (mtu : Nat)
  | storeIsOpen (b : Bool)
  | goRead
  | goWrite
  | ifaceClose (d : Device)
  deriving DecidableEq, Repr

/-- The `ipv6rwc.ReadWriteCloser` as `_start` reads it. -/
structure ReadWriteCloser where
  Address : List Nat
  Subnet : List Nat
  MaxMTU : Nat
  deriving DecidableEq, Repr

/-- The `core.Core` as `_start` reads it. -/
structure Core where
  GetPrefix : List Nat
  deriving DecidableEq, Repr

/-- The anonymous `config` struct of `TunAdapter`. -/
structure Config where
  name : String
  mtu : Nat
  deriving DecidableEq, Repr

/-- Go `TunAdapter`. -/
structure TunAdapter where
  core : Core
  rwc : ReadWriteCloser
  addr : List Nat
  subnet : List Nat
  mtu : Nat
  iface : Option Device
  isOpen : Bool
  isEnabled : Bool
  config : Config
  deriving DecidableEq, Repr

/-- What the operating system and the libraries answer during `setup`:
the platform defaults, `elevate.DoAsSystem` failing before it runs its
callback, `CreateTUNWithRequestedGUID`, `net.ParseCIDR`,
`SetIPAddressesForFamily` at the first (0) or second (1) call of attempt `i`,
`luid.IPInterface`, `ipfamily.Set`, and `net.IP.String`. -/
structure Windows where
  defaults : platformDefaultParameters
  doAsSystem : Option Error
  createTUN : String → Int → Except Error Device
  parseCIDR : String → Option Error
  setIPAddresses : Nat → Nat → Option Error
  ipInterface : Option Error
  ipfamilySet : Option Error
  ipString : List Nat → String

/-- Go `MaximumMTU`. -/
def MaximumMTU (d : platformDefaultParameters) : Nat := d.MaximumIfMTU

/-- Go `getSupportedMTU`. -/
def getSupportedMTU (d : platformDefaultParameters) (mtu : Nat) : Nat :=
  if mtu < 1280 then 1280
  else if mtu > MaximumMTU d then MaximumMTU d
  else mtu

/-- Go `TunAdapter.MTU`. -/
def TunAdapter.MTU (tun : TunAdapter) (d : platformDefaultParameters) : Nat :=
  getSupportedMTU d tun.mtu

/-- Go `int(x)` for a `uint64`. -/
def toInt (x : Nat) : Int :=
  if x % 2 ^ 64 < 2 ^ 63 then (x % 2 ^ 64 : Nat) else ((x % 2 ^ 64 : Nat) : Int) - 2 ^ 64

/-- Go `uint64(x)` for an `int`. -/
def toUint64 (x : Int) : Nat := (x % 2 ^ 64).toNat

/-- Go `tun.Name()` on an adapter whose `iface` is the device `d`. -/
def deviceName (d : Device) : String := d.name.getD ""

/-- Go `TunAdapter.setupAddress` (Windows), at attempt `i` of the loop in `setup`. -/
def TunAdapter.setupAddress (tun : TunAdapter) (w : Windows) (addr : String) (i : Nat) :
    Option Error × List Effect :=
  match tun.iface with
  | none => (some .addressNotPresent, [])
  | some d =>
    if deviceName d = "" then (some .addressNotPresent, [])
    else if d.native then
      match w.parseCIDR addr with
      | none =>
        if w.setIPAddresses i 0 = some .objectAlreadyExists then
          (w.setIPAddresses i 1, [.setIPAddresses, .cleanupAddresses, .setIPAddresses])
        else (w.setIPAddresses i 0, [.setIPAddresses])
      | some e => (some e, [])
    else (some .noNativeTUN, [])

/-- Go `TunAdapter.setupMTU` (Windows). -/
def TunAdapter.setupMTU (tun : TunAdapter) (w : Windows) (mtu : Nat) :
    Option Error × List Effect :=
  match tun.iface with
  | none => (some .mtuNotPresent, [])
  | some d =>
    if deviceName d = "" then (some .mtuNotPresent, [])
    else if d.native then
      match w.ipInterface with
      | some e => (some e, [])
      | none =>
        match w.ipfamilySet with
        | some e => (some e, [.forceMTU (mtu % 2 ^ 32 : Nat), .ipfamilySet])
        | none => (none, [.forceMTU (mtu % 2 ^ 32 : Nat), .ipfamilySet])
    else (none, [])

/-- The loop `for i := 1; i < 10; i++` of `setup`, from `i` on, with
`fuel = 10 - i` passes left: a failed attempt is logged and, up to the eighth,
followed by a sleep of `2 * i` seconds; the ninth failure is returned.  The
`log.Printf("waiting...")` line is not recorded. -/
def addressLoop (tun : TunAdapter) (w : Windows) (addr : String) :
    Nat → Nat → Option Error × List Effect
  | 0, _ => (none, [])
  | fuel + 1, i =>
    match tun.setupAddress w addr i with
    | (some e, eff) =>
      if i > 8 then (some e, eff ++ [.logError])
      else
        match addressLoop tun w addr fuel (i + 1) with
        | (r, eff2) => (r, eff ++ [.logError, .sleep (2 * i)] ++ eff2)
    | (none, eff) => (none, eff)

/-- Go `TunAdapter.setup` (Windows): the adapter after the call, the error,
and the calls made.  `GUIDFromString` is applied to a well-formed constant and
cannot fail. -/
def TunAdapter.setup (tun : TunAdapter) (w : Windows) (ifname addr : String) (mtu : Nat) :
    TunAdapter × Option Error × List Effect :=
  let ifname := if ifname = "auto" then w.defaults.DefaultIfName else ifname
  match w.doAsSystem with
  | some e => (tun, some e, [])
  | none =>
    match w.createTUN ifname (toInt mtu) with
    | .error e => (tun, some e, [.createTUN ifname (toInt mtu)])
    | .ok iface =>
      let tun1 := { tun with iface := some iface }
      let eff0 : List Effect := [.createTUN ifname (toInt mtu)]
      match addressLoop tun1 w addr 9 1 with
      | (some e, eff1) => (tun1, some e, eff0 ++ eff1)
      | (none, eff1) =>
        match tun1.setupMTU w (getSupportedMTU w.defaults mtu) with
        | (some e, eff2) => (tun1, some e, eff0 ++ eff1 ++ eff2 ++ [.logError])
        | (none, eff2) =>
          match iface.mtu with
          | some m => ({ tun1 with mtu := toUint64 m }, none, eff0 ++ eff1 ++ eff2)
          | none => (tun1, none, eff0 ++ eff1 ++ eff2)

/-- The `addr` string built in `_start`: `fmt.Sprintf("%s/%d", ip, 8*len(prefix)-1)`. -/
def startAddr (tun : TunAdapter) (w : Windows) : String :=
  w.ipString tun.addr ++ "/" ++ toString ((8 * tun.core.GetPrefix.length : Int) - 1)

/-- Go `TunAdapter._start`. -/
def TunAdapter._start (tun : TunAdapter) (w : Windows) :
    TunAdapter × Option Error × List Effect :=
  if tun.isOpen then (tun, some .alreadyStarted, [])
  else
    let tun := { tun with addr := tun.rwc.Address, subnet := tun.rwc.Subnet }
    let addr := startAddr tun w
    if tun.config.name = "none" ∨ tun.config.name = "dummy" then
      ({ tun with isEnabled := false }, none, [.logDebug, .goWrite])
    else
      let mtu := if tun.rwc.MaxMTU < tun.config.mtu then tun.rwc.MaxMTU else tun.config.mtu
      match tun.setup w tun.config.name addr mtu with
      | (tun, some err, eff) => (tun, some err, eff)
      | (tun, none, eff) =>
        let warn : List Effect := if tun.MTU w.defaults ≠ mtu then [.logWarn] else []
        ({ tun with isOpen := true, isEnabled := true }, none,
          eff ++ warn ++ [.rwcSetMTU (tun.MTU w.defaults), .storeIsOpen true, .goRead, .goWrite])

/-- Go `TunAdapter._stop`. -/
def TunAdapter._stop (tun : TunAdapter) : TunAdapter × Option Error × List Effect :=
  let tun := { tun with isOpen := false }
  match tun.iface with
  | some d => (tun, none, [.storeIsOpen false, .ifaceClose d])
  | none => (tun, none, [.storeIsOpen false])

end tun

/-! ## Specification-side predicates -/

namespace core

/-- A hex digit, as the spec means it: `0-9`, `a-f`, `A-F`. -/
def isHexDigit (c : Char) : Bool :=
  ('0' ≤ c ∧ c ≤ '9') ∨ ('a' ≤ c ∧ c ≤ 'f') ∨ ('A' ≤ c ∧ c ≤ 'F')

/-- Valid hex, as the spec means it: an even number of characters, all of
them hex digits. -/
def validHex (s : String) : Bool :=
  s.data.length % 2 = 0 ∧ s.data.all isHexDigit

/-- The five schemes the spec lists as recognized. -/
def recognizedSchemes : List String := ["tcp", "tls", "unix", "socks", "mpath"]

/-- The host portion of a peering URI `scheme://host[:port]`: the host with its
port stripped, or all of it when it carries no port. -/
def hostPortion (u : URL) : String :=
  match net.SplitHostPort u.Host with
  | .ok (host, _) => host
  | .error _ => u.Host

/-- A zoned IPv6 literal `address%zone`: an IPv6 address, a percent sign and a
non-empty zone identifier.  `net.ParseIP` does not accept this form. -/
def isZonedLiteral (s : String) : Bool :=
  match net.indexByte s.data '%' with
  | none => false
  | some i => decide (s.data.drop (i + 1) ≠ []) && (net.parseIPv6 (s.data.take i)).isSome

/-- A literal IP address, as the spec means it: an IPv4 or IPv6 address in text
form, the latter with or without a zone. -/
def isIPLiteral (s : String) : Bool :=
  (net.ParseIP s).isSome || isZonedLiteral s

/-- The server name the spec's priority rule selects: the `sni=` value if it is
present and not a literal IP address, else the host portion if that is not a
literal IP address, else none. -/
def specServerName (u : URL) : String :=
  if u.queryGet "sni" ≠ "" ∧ isIPLiteral (u.queryGet "sni") = false then u.queryGet "sni"
  else if isIPLiteral (hostPortion u) = false then hostPortion u
  else ""

/-- The server name rule the code implements where no zoned literal is involved:
as `specServerName`, with the host taken only from a `Host` that splits as
`host:port`. -/
def splitServerName (u : URL) : String :=
  if u.queryGet "sni" ≠ "" ∧ isIPLiteral (u.queryGet "sni") = false then u.queryGet "sni"
  else
    match net.SplitHostPort u.Host with
    | .ok (host, _) => if isIPLiteral host = false then host else ""
    | .error _ => ""

/-- A backend whose `listen` always binds, returning listener `n`. -/
def bindingBackend (n : Nat) : Backend := { listen := fun _ _ => (some ⟨n⟩, none) }

/-- A `links` value with an empty registry. -/
def emptyLinks : links :=
  { tcp := bindingBackend 1, tls := bindingBackend 2, unix := bindingBackend 3,
    mpath := bindingBackend 4, _links := [] }

/-- A `links` value whose registry holds a dial in progress to `tcp://peer:1`. -/
def busyLinks : links :=
  { emptyLinks with _links := [(linkInfoFor "tcp" "" "peer:1", none)] }

end core

namespace admin

/-- The order the spec asks of two adjacent entries: ascending by key text. -/
def keyLE (x y : DHTEntry) : Prop := strings.Compare x.PublicKey y.PublicKey ≤ 0

/-- A sample public key: 32 bytes `0x0c`. -/
def keyA : List Nat := List.replicate 32 0x0c

/-- A sample public key: 32 bytes `0xab`. -/
def keyB : List Nat := List.replicate 32 0xab

/-- A sample addressing function and record list, with `keyB` returned first. -/
def sampleSocket : AdminSocket :=
  { core := { GetDHT := [⟨keyB, 2, 3⟩, ⟨keyA, 1, 5⟩], AddrForKey := fun k => k.take 16 } }

end admin

namespace tun

open defaults

/-- The interface name `setup` passes to `CreateTUNWithRequestedGUID` when
called from `_start`. -/
def startIfname (tun : TunAdapter) (w : Windows) : String :=
  if tun.config.name = "auto" then w.defaults.DefaultIfName else tun.config.name

/-- The MTU `_start` passes to `setup`: the configured MTU, capped by the
channel's maximum. -/
def startMTU (tun : TunAdapter) : Nat :=
  if tun.rwc.MaxMTU < tun.config.mtu then tun.rwc.MaxMTU else tun.config.mtu

/-- The adapter as `_start` hands it to `setup`: `addr` and `subnet` taken from
the channel, everything else as it was. -/
def startedAdapter (tun : TunAdapter) : TunAdapter :=
  { tun with addr := tun.rwc.Address, subnet := tun.rwc.Subnet }

/-- The adapter after `setup` has stored the created device `d` in `iface`. -/
def createdAdapter (tun : TunAdapter) (d : Device) : TunAdapter :=
  { startedAdapter tun with iface := some d }

/-- An operating system on which the interface is created and its address set,
but the MTU cannot be configured. -/
def mtuFailWindows : Windows :=
  { defaults := { MaximumIfMTU := 65535, DefaultIfMTU := 65535, DefaultIfName := "auto" },
    doAsSystem := none,
    createTUN := fun _ _ =>
      .ok { id := 1, name := some "mesh0", native := true, mtu := some 9000,
            close := some (.os 6) },
    parseCIDR := fun _ => none,
    setIPAddresses := fun _ _ => none, ipInterface := none, ipfamilySet := some (.os 87),
    ipString := fun _ => "200::1" }

/-- An operating system on which the interface cannot be created. -/
def createFailWindows : Windows :=
  { mtuFailWindows with createTUN := fun _ _ => .error (.os 5) }

/-- Platform defaults with a maximum MTU of 65535. -/
def defaults65535 : platformDefaultParameters :=
  { MaximumIfMTU := 65535, DefaultIfMTU := 65535, DefaultIfName := "auto" }

/-- A native device named `mesh0` that reports an MTU of 9000 and whose `Close`
fails. -/
def nativeDevice : Device :=
  { id := 1, name := some "mesh0", native := true, mtu := some 9000, close := some (.os 6) }

/-- A device that is not a `*NativeTun`. -/
def foreignDevice : Device :=
  { id := 2, name := some "mesh0", native := false, mtu := some 1500, close := none }

/-- An operating system on which every step of `setup` succeeds. -/
def goodWindows : Windows :=
  { defaults := defaults65535, doAsSystem := none,
    createTUN := fun _ _ => .ok nativeDevice, parseCIDR := fun _ => none,
    setIPAddresses := fun _ _ => none, ipInterface := none, ipfamilySet := none,
    ipString := fun _ => "200::1" }

/-- An operating system on which the interface is created but its address
cannot be configured, the device not being a `*NativeTun`. -/
def addressFailWindows : Windows :=
  { goodWindows with createTUN := fun _ _ => .ok foreignDevice }

/-- A freshly built adapter (`New`, before `_start`) with the given interface
name and an MTU of 9000. -/
def freshAdapter (name : String) : TunAdapter :=
  { core := { GetPrefix := [0xfc] },
    rwc := { Address := List.replicate 16 2, Subnet := List.replicate 8 3, MaxMTU := 65535 },
    addr := List.replicate 16 0, subnet := List.replicate 8 0, mtu := 0,
    iface := none, isOpen := false, isEnabled := false,
    config := { name := name, mtu := 9000 } }

end tun

/-! # Theorems -/

/-! ## Lemmas on the library models -/

namespace hex

theorem fromHexChar_isSome (c : Char) : (fromHexChar c).isSome = core.isHexDigit c := by
  unfold fromHexChar core.isHexDigit
  by_cases h1 : '0' ≤ c ∧ c ≤ '9'
  · simp [h1]
  · by_cases h2 : 'a' ≤ c ∧ c ≤ 'f'
    · simp [h1, h2]
    · by_cases h3 : 'A' ≤ c ∧ c ≤ 'F'
      · simp [h1, h2, h3]
      · simp [h1, h2, h3]

theorem decodeChars_ok_iff : ∀ (n : Nat) (cs : List Char), cs.length ≤ n →
    ((∃ bs, decodeChars cs = .ok bs) ↔ (cs.length % 2 = 0 ∧ cs.all core.isHexDigit = true))
  | _, [], _ => by simp [decodeChars]
  | _, [p], _ => by
    cases hp : fromHexChar p <;> simp [decodeChars, hp]
  | 0, _ :: _ :: _, h => by simp at h
  | n + 1, p :: q :: rest, h => by
    have ih := decodeChars_ok_iff n rest (by simp at h; omega)
    have hp := fromHexChar_isSome p
    have hq := fromHexChar_isSome q
    cases hp' : fromHexChar p with
    | none =>
      rw [hp'] at hp
      simp [decodeChars, hp', ← hp]
    | some a =>
      rw [hp'] at hp
      cases hq' : fromHexChar q with
      | none =>
        rw [hq'] at hq
        simp [decodeChars, hp', hq', ← hq]
      | some b =>
        rw [hq'] at hq
        have hlen : (p :: q :: rest).length % 2 = rest.length % 2 := by
          simp only [List.length_cons]; omega
        cases hr : decodeChars rest with
        | error e =>
          have : ¬ (rest.length % 2 = 0 ∧ rest.all core.isHexDigit = true) := by
            rw [← ih]; simp [hr]
          simp only [decodeChars, hp', hq', hr, hlen, List.all_cons, ← hp, ← hq]
          simpa using this
        | ok bs =>
          have : rest.length % 2 = 0 ∧ rest.all core.isHexDigit = true := by
            rw [← ih]; exact ⟨bs, hr⟩
          simp only [decodeChars, hp', hq', hr, hlen, List.all_cons, ← hp, ← hq]
          simpa using this

theorem DecodeString_ok_iff (s : String) :
    (∃ bs, DecodeString s = .ok bs) ↔ core.validHex s = true := by
  unfold DecodeString core.validHex
  rw [decodeChars_ok_iff s.data.length s.data le_rfl]
  simp

theorem DecodeString_error_iff (s : String) :
    (∃ e, DecodeString s = .error e) ↔ core.validHex s = false := by
  have h := DecodeString_ok_iff s
  cases hd : DecodeString s with
  | error e =>
    have : ¬ core.validHex s = true := by rw [← h]; simp [hd]
    simpa using this
  | ok bs =>
    have : core.validHex s = true := by rw [← h]; exact ⟨bs, hd⟩
    simp [this]

end hex

namespace core

theorem pinnedKeys_error_iff : ∀ (ks : List String) (acc : List keyArray),
    (pinnedKeys ks acc = .error .pinnedKeyInvalidHex ↔ ∃ k ∈ ks, validHex k = false)
  | [], acc => by simp [pinnedKeys]
  | k :: ks, acc => by
    cases hd : hex.DecodeString k with
    | error e =>
      have : validHex k = false := (hex.DecodeString_error_iff k).1 ⟨e, hd⟩
      simp [pinnedKeys, hd, this]
    | ok bs =>
      have : validHex k = true := (hex.DecodeString_ok_iff k).1 ⟨bs, hd⟩
      simp [pinnedKeys, hd, this, pinnedKeys_error_iff ks]

theorem pinnedKeys_cases (ks : List String) (acc : List keyArray) :
    pinnedKeys ks acc = .error .pinnedKeyInvalidHex ∨ ∃ keys, pinnedKeys ks acc = .ok keys := by
  induction ks generalizing acc with
  | nil => simp [pinnedKeys]
  | cons k ks ih =>
    cases hd : hex.DecodeString k with
    | error e => simp [pinnedKeys, hd]
    | ok bs => simpa [pinnedKeys, hd] using ih _

theorem parsePriority_error (p : String) (e : Error) (h : parsePriority p = .error e) :
    ∃ n, e = .priorityInvalid n := by
  unfold parsePriority at h
  split at h
  · split at h
    · rename_i n _
      exact ⟨n, by simpa using h.symm⟩
    · simp at h
  · simp at h

theorem call_info (l : links) (u : URL) (sintf : String) :
    (l.call u sintf).info = linkInfoFor u.Scheme sintf u.Host := by
  unfold links.call
  simp only
  repeat' split
  all_goals rfl

theorem call_after (l : links) (u : URL) (sintf : String) :
    (l.call u sintf).after = l := by
  unfold links.call
  simp only
  repeat' split
  all_goals rfl

theorem call_connected (l : links) (u : URL) (sintf : String)
    (h : l.isConnectedTo (linkInfoFor u.Scheme sintf u.Host) = true) :
    (l.call u sintf).err = none ∧ (l.call u sintf).dials = [] := by
  unfold links.call
  simp [h]

theorem call_err_dials (l : links) (u : URL) (sintf : String)
    (h : (l.call u sintf).err ≠ none) : (l.call u sintf).dials = [] := by
  unfold links.call at h ⊢
  simp only at h ⊢
  repeat' split
  all_goals first | rfl | (exfalso; revert h; simp_all)

theorem call_fresh (l : links) (u : URL) (sintf : String) (keys : List keyArray) (p : Nat)
    (hc : l.isConnectedTo (linkInfoFor u.Scheme sintf u.Host) = false)
    (hk : pinnedKeys (u.queryValues "key") [] = .ok keys)
    (hp : parsePriority (u.queryGet "priority") = .ok p) :
    l.call u sintf =
      (if u.Scheme = "tcp" then
        ⟨linkInfoFor u.Scheme sintf u.Host, none, [.tcp u ⟨keys, p⟩ sintf], l⟩
      else if u.Scheme = "socks" then
        ⟨linkInfoFor u.Scheme sintf u.Host, none, [.socks u ⟨keys, p⟩], l⟩
      else if u.Scheme = "tls" then
        ⟨linkInfoFor u.Scheme sintf u.Host, none, [.tls u ⟨keys, p⟩ sintf (tlsServerName u)], l⟩
      else if u.Scheme = "unix" then
        ⟨linkInfoFor u.Scheme sintf u.Host, none, [.unix u ⟨keys, p⟩ sintf], l⟩
      else if u.Scheme = "mpath" then
        ⟨linkInfoFor u.Scheme sintf u.Host, none, [.mpath u ⟨keys, p⟩ sintf], l⟩
      else ⟨linkInfoFor u.Scheme sintf u.Host, some (.unknownCallScheme u.Scheme), [], l⟩) := by
  unfold links.call
  simp only [hc, hk, hp]
  rfl

end core

namespace core

/-- C1 (as the code has it): `links.call` returns the pinned-key error exactly
when the identity is not yet in the registry and some `key=` value is not valid
hex (odd length or a non-hex character); a key that is valid hex of any length
is accepted.  Whenever `call` returns an error it has dispatched no dial. -/
theorem C1_call_pinned_key_error (l : links) (u : URL) (sintf : String) :
    ((l.call u sintf).err = some .pinnedKeyInvalidHex ↔
      (l.isConnectedTo (linkInfoFor u.Scheme sintf u.Host) = false ∧
        ∃ k ∈ u.queryValues "key", validHex k = false)) ∧
    ((l.call u sintf).err ≠ none → (l.call u sintf).dials = []) := by
  refine ⟨?_, call_err_dials l u sintf⟩
  cases hc : l.isConnectedTo (linkInfoFor u.Scheme sintf u.Host) with
  | true => simp [(call_connected l u sintf hc).1]
  | false =>
    rw [← pinnedKeys_error_iff (u.queryValues "key") []]
    rcases pinnedKeys_cases (u.queryValues "key") [] with hk | ⟨keys, hk⟩
    · simp [links.call, hc, hk]
    · cases hp : parsePriority (u.queryGet "priority") with
      | error e =>
        obtain ⟨n, rfl⟩ := parsePriority_error _ _ hp
        simp [links.call, hc, hk, hp]
      | ok p =>
        simp only [links.call, hc, hk, hp]
        repeat' split
        all_goals simp

/-- C1, the claim as stated fails: with an empty registry a `key=00` (valid hex
that decodes to one byte, not 32) is accepted and the TCP dial is dispatched;
and for an identity already in the registry an invalid `key=zz` gives no error. -/
theorem C1_counterexample :
    (hex.DecodeString "00" = .ok [0] ∧ [0].length ≠ PublicKeySize ∧
      (emptyLinks.call ⟨"tcp", "peer:1", [("key", "00")]⟩ "").err = none ∧
      (emptyLinks.call ⟨"tcp", "peer:1", [("key", "00")]⟩ "").dials =
        [.tcp ⟨"tcp", "peer:1", [("key", "00")]⟩ ⟨[copyKey [0]], 0⟩ ""]) ∧
    (validHex "zz" = false ∧
      (busyLinks.call ⟨"tcp", "peer:1", [("key", "zz")]⟩ "").err = none) := by
  decide

/-- C2: when the identity `linkInfoFor(scheme, sintf, host)` is already in the
registry, `links.call` returns that identity with a nil error, starts no dial and
leaves the registry as it was; and in every outcome the identity returned is
`linkInfoFor(scheme, sintf, host)`. -/
theorem C2_call_idempotent (l : links) (u : URL) (sintf : String) :
    (l.isConnectedTo (linkInfoFor u.Scheme sintf u.Host) = true →
      (l.call u sintf).info = linkInfoFor u.Scheme sintf u.Host ∧
      (l.call u sintf).err = none ∧ (l.call u sintf).dials = [] ∧
      (l.call u sintf).after = l) ∧
    (l.call u sintf).info = linkInfoFor u.Scheme sintf u.Host := by
  refine ⟨fun h => ⟨call_info l u sintf, (call_connected l u sintf h).1,
    (call_connected l u sintf h).2, call_after l u sintf⟩, call_info l u sintf⟩

/-- C2 at a concrete input: a second dial of `tcp://peer:1` while the first is
in progress. -/
theorem C2_call_idempotent_witness :
    busyLinks.isConnectedTo (linkInfoFor "tcp" "" "peer:1") = true ∧
    (busyLinks.call ⟨"tcp", "peer:1", []⟩ "").info = linkInfoFor "tcp" "" "peer:1" ∧
    (busyLinks.call ⟨"tcp", "peer:1", []⟩ "").err = none ∧
    (busyLinks.call ⟨"tcp", "peer:1", []⟩ "").dials = [] :=
  ⟨by decide,
   ((C2_call_idempotent busyLinks ⟨"tcp", "peer:1", []⟩ "").1 (by decide)).1,
   ((C2_call_idempotent busyLinks ⟨"tcp", "peer:1", []⟩ "").1 (by decide)).2.1,
   ((C2_call_idempotent busyLinks ⟨"tcp", "peer:1", []⟩ "").1 (by decide)).2.2.1⟩

/-- C3 (as the code has it): for a scheme that is none of tcp, tls, unix, socks,
mpath, `links.listen` returns the unrecognised-scheme error and calls no
backend; `links.call` dispatches no dial and leaves the registry unchanged, and
when the identity is not yet in the registry it returns an error, which is the
unknown-scheme error whenever every `key=` value is valid hex and the priority
is absent or parses. -/
theorem C3_unknown_scheme (l : links) (u : URL) (sintf : String)
    (h : u.Scheme ∉ recognizedSchemes) :
    (l.listen u sintf).result = (none, some (.unrecognisedScheme u.Scheme)) ∧
    (l.listen u sintf).calls = [] ∧
    (l.call u sintf).dials = [] ∧
    (l.call u sintf).after = l ∧
    (l.isConnectedTo (linkInfoFor u.Scheme sintf u.Host) = false →
      (l.call u sintf).err ≠ none) ∧
    (l.isConnectedTo (linkInfoFor u.Scheme sintf u.Host) = false →
      (∀ k ∈ u.queryValues "key", validHex k = true) →
      (u.queryGet "priority" = "" ∨
        ∃ n, strconv.ParseUint8 (u.queryGet "priority") = .ok n) →
      (l.call u sintf).err = some (.unknownCallScheme u.Scheme)) := by
  simp only [recognizedSchemes, List.mem_cons, List.mem_singleton, List.not_mem_nil,
    or_false, not_or] at h
  obtain ⟨h1, h2, h3, h4, h5⟩ := h
  have herr : l.isConnectedTo (linkInfoFor u.Scheme sintf u.Host) = false →
      (l.call u sintf).err ≠ none := by
    intro hc
    rcases pinnedKeys_cases (u.queryValues "key") [] with hk | ⟨keys, hk⟩
    · simp [links.call, hc, hk]
    · cases hp : parsePriority (u.queryGet "priority") with
      | error e => simp [links.call, hc, hk, hp]
      | ok p => simp [call_fresh l u sintf keys p hc hk hp, h1, h2, h3, h4, h5]
  refine ⟨?_, ?_, ?_, call_after l u sintf, herr, ?_⟩
  · simp [links.listen, h1, h2, h3, h5]
  · simp [links.listen, h1, h2, h3, h5]
  · cases hc : l.isConnectedTo (linkInfoFor u.Scheme sintf u.Host) with
    | true => exact (call_connected l u sintf hc).2
    | false => exact call_err_dials l u sintf (herr hc)
  · intro hc hkeys hprio
    rcases pinnedKeys_cases (u.queryValues "key") [] with hk | ⟨keys, hk⟩
    · obtain ⟨k, hk1, hk2⟩ := (pinnedKeys_error_iff _ _).1 hk
      rw [hkeys k hk1] at hk2
      exact absurd hk2 (by simp)
    · have hp : ∃ p, parsePriority (u.queryGet "priority") = .ok p := by
        rcases hprio with h0 | ⟨n, hn⟩
        · exact ⟨0, by simp [parsePriority, h0]⟩
        · by_cases h0 : u.queryGet "priority" = ""
          · exact ⟨0, by simp [parsePriority, h0]⟩
          · exact ⟨n % 256, by simp [parsePriority, h0, hn]⟩
      obtain ⟨p, hp⟩ := hp
      simp [call_fresh l u sintf keys p hc hk hp, h1, h2, h3, h4, h5]

/-- C3 at a concrete input: `quic://peer:1` with no options. -/
theorem C3_unknown_scheme_witness :
    "quic" ∉ recognizedSchemes ∧
    (emptyLinks.listen ⟨"quic", "peer:1", []⟩ "").result =
      (none, some (.unrecognisedScheme "quic")) ∧
    (emptyLinks.call ⟨"quic", "peer:1", []⟩ "").dials = [] ∧
    (emptyLinks.call ⟨"quic", "peer:1", []⟩ "").err = some (.unknownCallScheme "quic") :=
  ⟨by decide,
   (C3_unknown_scheme emptyLinks ⟨"quic", "peer:1", []⟩ "" (by decide)).1,
   (C3_unknown_scheme emptyLinks ⟨"quic", "peer:1", []⟩ "" (by decide)).2.2.1,
   (C3_unknown_scheme emptyLinks ⟨"quic", "peer:1", []⟩ "" (by decide)).2.2.2.2.2
     (by decide) (by decide) (Or.inl (by decide))⟩

/-- C3, the claim as stated fails: for the unknown scheme `quic` with the option
`key=zz`, `links.call` returns the pinned-key error, not the unknown-scheme
error. -/
theorem C3_counterexample :
    "quic" ∉ recognizedSchemes ∧
    (emptyLinks.call ⟨"quic", "peer:1", [("key", "zz")]⟩ "").err =
      some .pinnedKeyInvalidHex ∧
    (emptyLinks.call ⟨"quic", "peer:1", [("key", "zz")]⟩ "").err ≠
      some (.unknownCallScheme "quic") := by
  decide

/-- C4 (as the code has it): for the schemes tcp, tls, unix and mpath,
`links.listen` calls the matching backend once and returns exactly its result;
for socks, which has no listener, it returns the unrecognised-scheme error and
calls no backend. -/
theorem C4_listen_dispatch (l : links) (u : URL) (sintf : String) :
    (u.Scheme = "tcp" → (l.listen u sintf).result = l.tcp.listen u sintf ∧
      (l.listen u sintf).calls = [.tcp u sintf]) ∧
    (u.Scheme = "tls" → (l.listen u sintf).result = l.tls.listen u sintf ∧
      (l.listen u sintf).calls = [.tls u sintf]) ∧
    (u.Scheme = "unix" → (l.listen u sintf).result = l.unix.listen u sintf ∧
      (l.listen u sintf).calls = [.unix u sintf]) ∧
    (u.Scheme = "mpath" → (l.listen u sintf).result = l.mpath.listen u sintf ∧
      (l.listen u sintf).calls = [.mpath u sintf]) ∧
    (u.Scheme = "socks" →
      (l.listen u sintf).result = (none, some (.unrecognisedScheme "socks")) ∧
      (l.listen u sintf).calls = []) := by
  refine ⟨?_, ?_, ?_, ?_, ?_⟩ <;> intro h <;> simp [links.listen, h]

/-- C4 at concrete inputs: a `tls` listen reaches the TLS backend, a `socks`
listen is refused. -/
theorem C4_listen_dispatch_witness :
    (emptyLinks.listen ⟨"tls", "[::]:0", []⟩ "").result = (some ⟨2⟩, none) ∧
    (emptyLinks.listen ⟨"socks", "[::]:0", []⟩ "").calls = [] :=
  ⟨((C4_listen_dispatch emptyLinks ⟨"tls", "[::]:0", []⟩ "").2.1 rfl).1,
   ((C4_listen_dispatch emptyLinks ⟨"socks", "[::]:0", []⟩ "").2.2.2.2 rfl).2⟩

/-- C4, the claim as stated fails: `socks` is one of the five recognized
schemes, yet `links.listen` reports it as unrecognised. -/
theorem C4_counterexample :
    "socks" ∈ recognizedSchemes ∧
    (emptyLinks.listen ⟨"socks", "localhost:1080", []⟩ "").result =
      (none, some (.unrecognisedScheme "socks")) := by
  decide

theorem isIPLiteral_false_iff (s : String) (hz : isZonedLiteral s = false) :
    isIPLiteral s = false ↔ net.ParseIP s = none := by
  unfold isIPLiteral
  rw [hz, Bool.or_false]
  cases net.ParseIP s <;> simp

theorem isIPLiteral_empty : isIPLiteral "" = false := by decide

theorem tlsServerName_eq (u : URL) (hz1 : isZonedLiteral (u.queryGet "sni") = false)
    (hz2 : ∀ host port, net.SplitHostPort u.Host = .ok (host, port) →
      isZonedLiteral host = false) :
    tlsServerName u = splitServerName u := by
  have e1 := isIPLiteral_false_iff _ hz1
  unfold tlsServerName splitServerName
  by_cases h1 : u.queryGet "sni" = ""
  · cases hs : net.SplitHostPort u.Host with
    | error e => simp [h1]
    | ok hp =>
      obtain ⟨host, port⟩ := hp
      simp [h1, isIPLiteral_false_iff _ (hz2 host port hs)]
  · by_cases h2 : net.ParseIP (u.queryGet "sni") = none
    · simp [h1, h2, e1]
    · cases hs : net.SplitHostPort u.Host with
      | error e => simp [h1, h2, e1]
      | ok hp =>
        obtain ⟨host, port⟩ := hp
        simp [h1, h2, e1, isIPLiteral_false_iff _ (hz2 host port hs)]

theorem splitServerName_not_ip (u : URL) : isIPLiteral (splitServerName u) = false := by
  unfold splitServerName
  split
  · rename_i h; exact h.2
  · split
    · split
      · assumption
      · exact isIPLiteral_empty
    · exact isIPLiteral_empty

/-- The zoned literal the code lets through: for `tls://[fe80::1%25eth0]:443`
(`Host` is `[fe80::1%eth0]:443`) `net.ParseIP` returns nil for the zoned host, so
`links.call` hands the IPv6 literal `fe80::1%eth0` to the TLS dial as server
name, which the comment in `case "tls"` means to exclude. -/
theorem tlsServerName_zoned_literal :
    net.SplitHostPort "[fe80::1%eth0]:443" = .ok ("fe80::1%eth0", "443") ∧
    net.ParseIP "fe80::1%eth0" = none ∧
    isIPLiteral "fe80::1%eth0" = true ∧
    (emptyLinks.call ⟨"tls", "[fe80::1%eth0]:443", []⟩ "").dials =
      [.tls ⟨"tls", "[fe80::1%eth0]:443", []⟩ ⟨[], 0⟩ "" "fe80::1%eth0"] := by
  decide

/-- C9 (as the code has it, zoned IPv6 literals apart): for a `tls` URI in which
neither the `sni=` value nor the host of `host:port` is a zoned IPv6 literal,
every TLS dial `links.call` dispatches carries as server name the `sni=` value if
that is non-empty and not a literal IP address, else the host of a `Host` that
splits as `host:port` if that host is not a literal IP address, else the empty
name; the name is never a literal IP address, zoned or not.  When the identity
is not yet in the registry and the options are accepted, exactly one such dial
is dispatched. -/
theorem C9_tls_server_name (l : links) (u : URL) (sintf : String) (h : u.Scheme = "tls")
    (hz1 : isZonedLiteral (u.queryGet "sni") = false)
    (hz2 : ∀ host port, net.SplitHostPort u.Host = .ok (host, port) →
      isZonedLiteral host = false) :
    (∀ u1 o s name, DialCall.tls u1 o s name ∈ (l.call u sintf).dials →
      name = splitServerName u ∧ isIPLiteral name = false) ∧
    (l.isConnectedTo (linkInfoFor u.Scheme sintf u.Host) = false →
      (l.call u sintf).err = none →
      ∃ o, (l.call u sintf).dials = [.tls u o sintf (splitServerName u)]) := by
  have key : ∀ keys p,
      l.isConnectedTo (linkInfoFor u.Scheme sintf u.Host) = false →
      pinnedKeys (u.queryValues "key") [] = .ok keys →
      parsePriority (u.queryGet "priority") = .ok p →
      (l.call u sintf).dials = [.tls u ⟨keys, p⟩ sintf (splitServerName u)] := by
    intro keys p hc hk hp
    simp [call_fresh l u sintf keys p hc hk hp, h, tlsServerName_eq u hz1 hz2]
  constructor
  · intro u1 o s name hmem
    cases hc : l.isConnectedTo (linkInfoFor u.Scheme sintf u.Host) with
    | true => rw [(call_connected l u sintf hc).2] at hmem; simp at hmem
    | false =>
      rcases pinnedKeys_cases (u.queryValues "key") [] with hk | ⟨keys, hk⟩
      · have : (l.call u sintf).dials = [] := by simp [links.call, hc, hk]
        rw [this] at hmem; simp at hmem
      · cases hp : parsePriority (u.queryGet "priority") with
        | error e =>
          have : (l.call u sintf).dials = [] := by simp [links.call, hc, hk, hp]
          rw [this] at hmem; simp at hmem
        | ok p =>
          rw [key keys p hc hk hp] at hmem
          simp only [List.mem_singleton, DialCall.tls.injEq] at hmem
          obtain ⟨-, -, -, rfl⟩ := hmem
          exact ⟨rfl, splitServerName_not_ip u⟩
  · intro hc herr
    rcases pinnedKeys_cases (u.queryValues "key") [] with hk | ⟨keys, hk⟩
    · exfalso; revert herr; simp [links.call, hc, hk]
    · cases hp : parsePriority (u.queryGet "priority") with
      | error e => exfalso; revert herr; simp [links.call, hc, hk, hp]
      | ok p => exact ⟨⟨keys, p⟩, key keys p hc hk hp⟩

/-- C9 at concrete inputs: `tls://example.com:443?sni=2001:db8::1` falls back
from the IPv6-literal `sni=` to the host name, and `tls://[::1]:443?sni=10.0.0.1`,
where both are IP literals, gets the empty name. -/
theorem C9_tls_server_name_witness :
    (isIPLiteral "2001:db8::1" = true ∧ isIPLiteral "example.com" = false ∧
      ∃ o, (emptyLinks.call ⟨"tls", "example.com:443", [("sni", "2001:db8::1")]⟩ "").dials =
        [.tls ⟨"tls", "example.com:443", [("sni", "2001:db8::1")]⟩ o "" "example.com"]) ∧
    (isIPLiteral "10.0.0.1" = true ∧ isIPLiteral "::1" = true ∧
      ∃ o, (emptyLinks.call ⟨"tls", "[::1]:443", [("sni", "10.0.0.1")]⟩ "").dials =
        [.tls ⟨"tls", "[::1]:443", [("sni", "10.0.0.1")]⟩ o "" ""]) :=
  ⟨⟨by decide, by decide,
    (C9_tls_server_name emptyLinks ⟨"tls", "example.com:443", [("sni", "2001:db8::1")]⟩ ""
      rfl (by decide) (by
        intro host port hs
        have : host = "example.com" := by
          have h2 : net.SplitHostPort "example.com:443" = .ok ("example.com", "443") := by
            decide
          rw [show (⟨"tls", "example.com:443", [("sni", "2001:db8::1")]⟩ : URL).Host =
            "example.com:443" from rfl, h2] at hs
          simp only [Except.ok.injEq, Prod.mk.injEq] at hs
          exact hs.1.symm
        subst this
        decide)).2 (by decide) (by decide)⟩,
   ⟨by decide, by decide,
    (C9_tls_server_name emptyLinks ⟨"tls", "[::1]:443", [("sni", "10.0.0.1")]⟩ ""
      rfl (by decide) (by
        intro host port hs
        have : host = "::1" := by
          have h2 : net.SplitHostPort "[::1]:443" = .ok ("::1", "443") := by decide
          rw [show (⟨"tls", "[::1]:443", [("sni", "10.0.0.1")]⟩ : URL).Host =
            "[::1]:443" from rfl, h2] at hs
          simp only [Except.ok.injEq, Prod.mk.injEq] at hs
          exact hs.1.symm
        subst this
        decide)).2 (by decide) (by decide)⟩⟩

/-- C9, the claim as stated fails: for `tls://localhost` (no port, no `sni=`) the
host portion `localhost` is not a literal IP address, so the claimed rule
selects `localhost`, but `links.call` hands the TLS dial an empty server name. -/
theorem C9_counterexample :
    isIPLiteral "localhost" = false ∧
    specServerName ⟨"tls", "localhost", []⟩ = "localhost" ∧
    (emptyLinks.call ⟨"tls", "localhost", []⟩ "").dials =
      [.tls ⟨"tls", "localhost", []⟩ ⟨[], 0⟩ "" ""] := by
  decide

end core

namespace strings

theorem compareChars_lt_iff : ∀ a b : List Char,
    compareChars a b < 0 ↔ List.Lex (· < ·) a b
  | [], [] => by simp [compareChars]
  | [], _ :: _ => by simp [compareChars, List.Lex.nil]
  | _ :: _, [] => by simp [compareChars]
  | a :: as, b :: bs => by
    unfold compareChars
    by_cases h1 : a < b
    · simp [h1, List.Lex.rel h1]
    · by_cases h2 : b < a
      · simp only [h1, h2, if_false, if_true]
        constructor
        · intro h; omega
        · intro h
          cases h with
          | cons h => exact absurd h2 (lt_irrefl _)
          | rel h => exact absurd h h1
      · have hab : a = b := le_antisymm (not_lt.1 h2) (not_lt.1 h1)
        subst hab
        simp only [h1, if_false]
        rw [compareChars_lt_iff as bs, List.Lex.cons_iff]

theorem compareChars_pos_iff : ∀ a b : List Char,
    0 < compareChars a b ↔ compareChars b a < 0
  | [], [] => by simp [compareChars]
  | [], _ :: _ => by simp [compareChars]
  | _ :: _, [] => by simp [compareChars]
  | a :: as, b :: bs => by
    unfold compareChars
    by_cases h1 : a < b
    · have h2 : ¬ b < a := lt_asymm h1
      simp [h1, h2]
    · by_cases h2 : b < a
      · simp [h1, h2]
      · simp only [h1, h2, if_false]
        exact compareChars_pos_iff as bs

theorem Compare_lt_iff (a b : String) : Compare a b < 0 ↔ a.data < b.data :=
  compareChars_lt_iff a.data b.data

theorem Compare_le_iff (a b : String) : Compare a b ≤ 0 ↔ a.data ≤ b.data := by
  have h1 : Compare b a < 0 ↔ b.data < a.data := Compare_lt_iff b a
  have h2 : 0 < Compare a b ↔ Compare b a < 0 := compareChars_pos_iff a.data b.data
  rw [show a.data ≤ b.data ↔ ¬ b.data < a.data from not_lt.symm, ← h1, ← h2]
  omega

end strings

namespace admin

theorem lessByKey_false_iff (x y : DHTEntry) :
    lessByKey y x = false ↔ x.PublicKey.data ≤ y.PublicKey.data := by
  unfold lessByKey
  rw [decide_eq_false_iff_not, strings.Compare_lt_iff, not_lt]

theorem lessByKey_total : IsTotal DHTEntry (fun a b => lessByKey b a = false) :=
  ⟨fun a b => by
    rw [lessByKey_false_iff, lessByKey_false_iff]
    exact le_total _ _⟩

theorem lessByKey_trans : IsTrans DHTEntry (fun a b => lessByKey b a = false) :=
  ⟨fun a b c => by
    rw [lessByKey_false_iff, lessByKey_false_iff, lessByKey_false_iff]
    exact le_trans⟩

theorem foldl_append_map {α β : Type} (f : α → β) : ∀ (l : List α) (init : List β),
    l.foldl (fun acc d => acc ++ [f d]) init = init ++ l.map f
  | [], init => by simp
  | d :: l, init => by simp [foldl_append_map f l]

theorem handler_eq (ipString : List Nat → String) (a : AdminSocket)
    (req : GetDHTRequest) (res : GetDHTResponse) :
    getDHTHandler ipString a req res =
      (none, { DHT := sort.SliceStable lessByKey (a.core.GetDHT.map (entryFor ipString a)) }) := by
  simp [getDHTHandler, foldl_append_map]

theorem sorted_output (l : List DHTEntry) :
    (sort.SliceStable lessByKey l).Pairwise keyLE := by
  haveI := lessByKey_total
  haveI := lessByKey_trans
  have h := List.sorted_insertionSort (fun a b => lessByKey b a = false) l
  refine List.Pairwise.imp ?_ h
  intro x y hxy
  rw [lessByKey_false_iff] at hxy
  exact (strings.Compare_le_iff _ _).2 hxy

theorem sorted_strict (l : List DHTEntry) (hnd : (l.map DHTEntry.PublicKey).Nodup) :
    (sort.SliceStable lessByKey l).Pairwise
      (fun x y => x.PublicKey.data < y.PublicKey.data) := by
  haveI := lessByKey_total
  haveI := lessByKey_trans
  have h := List.sorted_insertionSort (fun a b => lessByKey b a = false) l
  have hp : (sort.SliceStable lessByKey l).Perm l :=
    List.perm_insertionSort _ l
  have hnd2 : ((sort.SliceStable lessByKey l).map DHTEntry.PublicKey).Nodup :=
    (hp.map _).nodup_iff.2 hnd
  have hne : (sort.SliceStable lessByKey l).Pairwise
      (fun x y => x.PublicKey ≠ y.PublicKey) := by
    unfold List.Nodup at hnd2
    rwa [List.pairwise_map] at hnd2
  refine List.Pairwise.imp₂ ?_ h hne
  intro x y hle hne
  rw [lessByKey_false_iff] at hle
  refine lt_of_le_of_ne hle ?_
  intro hd
  apply hne
  cases hx : x.PublicKey
  cases hy : y.PublicKey
  simp_all

theorem sort_perm_eq (l₁ l₂ : List DHTEntry) (hp : l₁.Perm l₂)
    (hnd : (l₁.map DHTEntry.PublicKey).Nodup) :
    sort.SliceStable lessByKey l₁ = sort.SliceStable lessByKey l₂ := by
  have hnd2 : (l₂.map DHTEntry.PublicKey).Nodup := (hp.map _).nodup_iff.1 hnd
  have s1 := sorted_strict l₁ hnd
  have s2 := sorted_strict l₂ hnd2
  have p1 : (sort.SliceStable lessByKey l₁).Perm l₁ := List.perm_insertionSort _ l₁
  have p2 : (sort.SliceStable lessByKey l₂).Perm l₂ := List.perm_insertionSort _ l₂
  haveI : IsAntisymm DHTEntry (fun x y => x.PublicKey.data < y.PublicKey.data) :=
    ⟨fun x y h1 h2 => absurd h2 (lt_asymm h1)⟩
  exact List.eq_of_perm_of_sorted ((p1.trans hp).trans p2.symm) s1 s2

end admin

namespace admin

/-- C5: for every list of records returned by the core, `getDHTHandler` returns
nil and sets the response to those records, one entry per record with
key = hex(publicKey), address = text of `AddrForKey(publicKey)`, port and rest
copied, in ascending order of the hex key: same length, a permutation of the
mapped source, every pair (so every adjacent pair) ordered by key; two sources
that are permutations of each other with distinct keys give the same response;
and records `A:(1,5)`, `B:(2,3)` with hex(A) < hex(B) give `[entryA, entryB]` in
either source order. -/
theorem C5_getDHTHandler_sorted (ipString : List Nat → String) (a : AdminSocket)
    (req : GetDHTRequest) (res : GetDHTResponse) :
    (getDHTHandler ipString a req res).1 = none ∧
    (getDHTHandler ipString a req res).2.DHT.length = a.core.GetDHT.length ∧
    (getDHTHandler ipString a req res).2.DHT.Perm
      (a.core.GetDHT.map fun d =>
        { IPAddress := ipString (a.core.AddrForKey d.Key)
          PublicKey := hex.EncodeToString d.Key
          Port := d.Port
          Rest := d.Rest }) ∧
    (getDHTHandler ipString a req res).2.DHT.Pairwise keyLE ∧
    (getDHTHandler ipString a req res).2.DHT.Chain' keyLE ∧
    (∀ (b : AdminSocket) (req2 : GetDHTRequest) (res2 : GetDHTResponse),
      b.core.AddrForKey = a.core.AddrForKey →
      b.core.GetDHT.Perm a.core.GetDHT →
      (a.core.GetDHT.map fun d => hex.EncodeToString d.Key).Nodup →
      getDHTHandler ipString b req2 res2 = getDHTHandler ipString a req res) ∧
    (∀ A B : List Nat,
      strings.Compare (hex.EncodeToString A) (hex.EncodeToString B) < 0 →
      (a.core.GetDHT = [⟨A, 1, 5⟩, ⟨B, 2, 3⟩] ∨ a.core.GetDHT = [⟨B, 2, 3⟩, ⟨A, 1, 5⟩]) →
      (getDHTHandler ipString a req res).2.DHT =
        [⟨ipString (a.core.AddrForKey A), hex.EncodeToString A, 1, 5⟩,
         ⟨ipString (a.core.AddrForKey B), hex.EncodeToString B, 2, 3⟩]) := by
  rw [handler_eq]
  have hperm : (sort.SliceStable lessByKey (a.core.GetDHT.map (entryFor ipString a))).Perm
      (a.core.GetDHT.map (entryFor ipString a)) := List.perm_insertionSort _ _
  refine ⟨rfl, ?_, hperm, sorted_output _, (sorted_output _).chain', ?_, ?_⟩
  · simpa using hperm.length_eq
  · intro b req2 res2 haddr hp hnd
    rw [handler_eq]
    have hmap : b.core.GetDHT.map (entryFor ipString b) =
        b.core.GetDHT.map (entryFor ipString a) := by
      apply List.map_congr_left
      intro d _
      simp [entryFor, haddr]
    have hnd2 : ((b.core.GetDHT.map (entryFor ipString a)).map DHTEntry.PublicKey).Nodup := by
      have : ((a.core.GetDHT.map (entryFor ipString a)).map DHTEntry.PublicKey).Nodup := by
        simpa [List.map_map, Function.comp_def, entryFor] using hnd
      exact ((hp.map _).map _).nodup_iff.2 this
    rw [hmap, sort_perm_eq _ _ (hp.map _) hnd2]
  · intro A B hlt hsrc
    have hAB : lessByKey (entryFor ipString a ⟨A, 1, 5⟩) (entryFor ipString a ⟨B, 2, 3⟩) = true := by
      simp [lessByKey, entryFor, hlt]
    have hBA : lessByKey (entryFor ipString a ⟨B, 2, 3⟩) (entryFor ipString a ⟨A, 1, 5⟩) = false := by
      simp only [lessByKey, entryFor, decide_eq_false_iff_not, not_lt]
      have := (strings.compareChars_pos_iff (hex.EncodeToString B).data
        (hex.EncodeToString A).data).2 hlt
      exact le_of_lt this
    rcases hsrc with h | h
    · rw [h]
      simp only [sort.SliceStable, List.map_cons, List.map_nil, List.insertionSort,
        List.orderedInsert, hBA, if_true]
      rfl
    · rw [h]
      simp only [sort.SliceStable, List.map_cons, List.map_nil, List.insertionSort,
        List.orderedInsert, hAB, Bool.true_eq_false, if_false]
      rfl

/-- C5 at a concrete input: the core returns `keyB` before `keyA`; the response
lists `keyA` first. -/
theorem C5_getDHTHandler_sorted_witness :
    (getDHTHandler hex.EncodeToString sampleSocket {} ⟨[]⟩).2.DHT =
      [⟨hex.EncodeToString (keyA.take 16), hex.EncodeToString keyA, 1, 5⟩,
       ⟨hex.EncodeToString (keyB.take 16), hex.EncodeToString keyB, 2, 3⟩] :=
  (C5_getDHTHandler_sorted hex.EncodeToString sampleSocket {} ⟨[]⟩).2.2.2.2.2.2
    keyA keyB (by decide) (Or.inr rfl)

end admin

namespace tun

open defaults

theorem addressLoop_effects (tun : TunAdapter) (w : Windows) (addr : String) :
    ∀ (fuel i : Nat) (x : Effect), x ∈ (addressLoop tun w addr fuel i).2 →
      x = .setIPAddresses ∨ x = .cleanupAddresses ∨ x = .logError ∨ ∃ n, x = .sleep n
  | 0, _, x, h => by simp [addressLoop] at h
  | fuel + 1, i, x, h => by
    have hsa : ∀ y ∈ (tun.setupAddress w addr i).2,
        y = Effect.setIPAddresses ∨ y = Effect.cleanupAddresses := by
      intro y hy
      unfold TunAdapter.setupAddress at hy
      repeat' split at hy
      all_goals simp at hy
      all_goals rcases hy with rfl | rfl | rfl <;> simp
    have ih := addressLoop_effects tun w addr fuel (i + 1) x
    unfold addressLoop at h
    rcases hs : tun.setupAddress w addr i with ⟨_ | e, eff⟩
    · rw [hs] at h hsa
      simp only at h
      rcases hsa x h with h1 | h1 <;> simp [h1]
    · rw [hs] at h hsa
      simp only at h
      by_cases hi : i > 8
      · simp only [hi, if_true, List.mem_append, List.mem_singleton] at h
        rcases h with h | h
        · rcases hsa x h with h1 | h1 <;> simp [h1]
        · simp [h]
      · simp only [hi, if_false, List.mem_append, List.mem_cons, List.mem_singleton,
          List.not_mem_nil, or_false] at h
        rcases h with (h | h | h) | h
        · rcases hsa x h with h1 | h1 <;> simp [h1]
        · simp [h]
        · simp [h]
        · exact ih h

theorem setupMTU_effects (tun : TunAdapter) (w : Windows) (mtu : Nat) (x : Effect)
    (h : x ∈ (tun.setupMTU w mtu).2) : (∃ n, x = .forceMTU n) ∨ x = .ipfamilySet := by
  unfold TunAdapter.setupMTU at h
  repeat' split at h
  all_goals simp at h
  all_goals rcases h with rfl | rfl <;> simp

/-- The calls `setup` can make: none of them launches a pump or closes the
interface. -/
theorem setup_effects (t : TunAdapter) (w : Windows) (ifname addr : String) (mtu : Nat)
    (x : Effect) (hx : x ∈ (t.setup w ifname addr mtu).2.2) :
    x ≠ .goRead ∧ x ≠ .goWrite ∧ ∀ d, x ≠ .ifaceClose d := by
  have hA := addressLoop_effects
  have hM := setupMTU_effects
  unfold TunAdapter.setup at hx
  simp only at hx
  cases hd : w.doAsSystem with
  | some e => simp [hd] at hx
  | none =>
    simp only [hd] at hx
    cases hc : w.createTUN (if ifname = "auto" then w.defaults.DefaultIfName else ifname)
        (toInt mtu) with
    | error e =>
      simp only [hc, List.mem_singleton] at hx
      subst hx
      simp
    | ok iface =>
      simp only [hc] at hx
      have key : (∃ n m, x = Effect.createTUN n m) ∨
          x ∈ (addressLoop { t with iface := some iface } w addr 9 1).2 ∨
          x ∈ (TunAdapter.setupMTU { t with iface := some iface } w
            (getSupportedMTU w.defaults mtu)).2 ∨ x = .logError := by
        rcases ha : addressLoop { t with iface := some iface } w addr 9 1 with ⟨_ | e, eff1⟩
        · rw [ha] at hx
          simp only at hx
          rcases hs : TunAdapter.setupMTU { t with iface := some iface } w
            (getSupportedMTU w.defaults mtu) with ⟨_ | e2, eff2⟩
          · rw [hs] at hx
            simp only at hx
            cases hm : iface.mtu <;> rw [hm] at hx <;> simp only [List.mem_append,
              List.mem_singleton] at hx <;> rcases hx with (hx | hx) | hx <;> simp [hx]
          · rw [hs] at hx
            simp only [List.mem_append, List.mem_singleton] at hx
            rcases hx with ((hx | hx) | hx) | hx <;> simp [hx]
        · rw [ha] at hx
          simp only [List.mem_append, List.mem_singleton] at hx
          rcases hx with hx | hx <;> simp [hx]
      rcases key with ⟨n, m, rfl⟩ | h | h | rfl
      · simp
      · rcases hA _ w addr 9 1 x h with rfl | rfl | rfl | ⟨n, rfl⟩ <;> simp
      · rcases hM _ w _ x h with ⟨n, rfl⟩ | rfl <;> simp
      · simp

/-- When every attempt from `i` to the ninth fails, the loop returns the error
of the ninth attempt. -/
theorem addressLoop_all_fail (t : TunAdapter) (w : Windows) (addr : String) :
    ∀ (fuel i : Nat), fuel + i = 10 → 1 ≤ fuel →
      (∀ j, i ≤ j → j ≤ 9 → (t.setupAddress w addr j).1 ≠ none) →
      (addressLoop t w addr fuel i).1 = (t.setupAddress w addr 9).1
  | 0, _, _, h, _ => by omega
  | fuel + 1, i, hsum, _, hall => by
    have hi : (t.setupAddress w addr i).1 ≠ none := hall i le_rfl (by omega)
    unfold addressLoop
    rcases hs : t.setupAddress w addr i with ⟨_ | e, eff⟩
    · rw [hs] at hi; exact absurd rfl hi
    · simp only
      by_cases h8 : i > 8
      · have h9 : i = 9 := by omega
        subst h9
        simp [hs]
      · have ih := addressLoop_all_fail t w addr fuel (i + 1) (by omega) (by omega)
          (fun j hj1 hj2 => hall j (by omega) hj2)
        simp only [h8, if_false]
        exact ih

theorem setup_elevate_fail (t : TunAdapter) (w : Windows) (ifname addr : String) (mtu : Nat)
    (e : Error) (hd : w.doAsSystem = some e) :
    t.setup w ifname addr mtu = (t, some e, []) := by
  simp [TunAdapter.setup, hd]

theorem setup_create_fail (t : TunAdapter) (w : Windows) (ifname addr : String) (mtu : Nat)
    (e : Error) (hd : w.doAsSystem = none)
    (hc : w.createTUN (if ifname = "auto" then w.defaults.DefaultIfName else ifname)
      (toInt mtu) = .error e) :
    t.setup w ifname addr mtu =
      (t, some e, [.createTUN (if ifname = "auto" then w.defaults.DefaultIfName else ifname)
        (toInt mtu)]) := by
  simp [TunAdapter.setup, hd, hc]

theorem setup_address_fail (t : TunAdapter) (w : Windows) (ifname addr : String) (mtu : Nat)
    (d : Device) (e : Error) (eff : List Effect) (hd : w.doAsSystem = none)
    (hc : w.createTUN (if ifname = "auto" then w.defaults.DefaultIfName else ifname)
      (toInt mtu) = .ok d)
    (ha : addressLoop { t with iface := some d } w addr 9 1 = (some e, eff)) :
    (t.setup w ifname addr mtu).1 = { t with iface := some d } ∧
    (t.setup w ifname addr mtu).2.1 = some e := by
  simp [TunAdapter.setup, hd, hc, ha]

theorem setup_mtu_fail (t : TunAdapter) (w : Windows) (ifname addr : String) (mtu : Nat)
    (d : Device) (e : Error) (eff1 eff2 : List Effect) (hd : w.doAsSystem = none)
    (hc : w.createTUN (if ifname = "auto" then w.defaults.DefaultIfName else ifname)
      (toInt mtu) = .ok d)
    (ha : addressLoop { t with iface := some d } w addr 9 1 = (none, eff1))
    (hs : TunAdapter.setupMTU { t with iface := some d } w (getSupportedMTU w.defaults mtu) =
      (some e, eff2)) :
    (t.setup w ifname addr mtu).1 = { t with iface := some d } ∧
    (t.setup w ifname addr mtu).2.1 = some e := by
  simp [TunAdapter.setup, hd, hc, ha, hs]

/-- The adapter fields `setup` leaves alone, and what it stores in `iface`. -/
theorem setup_state (t : TunAdapter) (w : Windows) (ifname addr : String) (mtu : Nat) :
    (t.setup w ifname addr mtu).1.isOpen = t.isOpen ∧
    (t.setup w ifname addr mtu).1.isEnabled = t.isEnabled ∧
    (t.setup w ifname addr mtu).1.config = t.config ∧
    ((w.doAsSystem ≠ none ∨ ∃ e, w.createTUN
        (if ifname = "auto" then w.defaults.DefaultIfName else ifname) (toInt mtu) = .error e) →
      (t.setup w ifname addr mtu).1.iface = t.iface) ∧
    (w.doAsSystem = none → ∀ d, w.createTUN
        (if ifname = "auto" then w.defaults.DefaultIfName else ifname) (toInt mtu) = .ok d →
      (t.setup w ifname addr mtu).1.iface = some d) := by
  unfold TunAdapter.setup
  simp only
  cases hd : w.doAsSystem with
  | some e => simp [hd]
  | none =>
    cases hc : w.createTUN (if ifname = "auto" then w.defaults.DefaultIfName else ifname)
        (toInt mtu) with
    | error e => simp [hd, hc]
    | ok iface =>
      rcases ha : addressLoop { t with iface := some iface } w addr 9 1 with ⟨_ | e, eff1⟩
      · rcases hs : TunAdapter.setupMTU { t with iface := some iface } w
          (getSupportedMTU w.defaults mtu) with ⟨_ | e2, eff2⟩
        · cases hm : iface.mtu <;> simp [hd, hc, ha, hs, hm]
        · simp [hd, hc, ha, hs]
      · simp [hd, hc, ha]

end tun

namespace tun

open defaults

theorem start_open (tun : TunAdapter) (w : Windows) (h : tun.isOpen = true) :
    tun._start w = (tun, some .alreadyStarted, []) := by
  simp [TunAdapter._start, h]

theorem start_disabled (tun : TunAdapter) (w : Windows) (h : tun.isOpen = false)
    (hn : tun.config.name = "none" ∨ tun.config.name = "dummy") :
    tun._start w =
      ({ tun with addr := tun.rwc.Address, subnet := tun.rwc.Subnet, isEnabled := false },
        none, [.logDebug, .goWrite]) := by
  simp [TunAdapter._start, h, hn]

theorem start_enabled (tun : TunAdapter) (w : Windows) (h : tun.isOpen = false)
    (h1 : tun.config.name ≠ "none") (h2 : tun.config.name ≠ "dummy") :
    tun._start w =
      (match ({ tun with addr := tun.rwc.Address, subnet := tun.rwc.Subnet } : TunAdapter).setup
          w tun.config.name
          (startAddr { tun with addr := tun.rwc.Address, subnet := tun.rwc.Subnet } w)
          (startMTU tun) with
      | (t, some err, eff) => (t, some err, eff)
      | (t, none, eff) =>
        ({ t with isOpen := true, isEnabled := true }, none,
          eff ++ (if t.MTU w.defaults ≠ startMTU tun then [Effect.logWarn] else []) ++
            [.rwcSetMTU (t.MTU w.defaults), .storeIsOpen true, .goRead, .goWrite])) := by
  simp only [TunAdapter._start, h, startMTU]
  simp [h1, h2]

/-- C6: with a platform maximum of at least 1280 (as `MaximumMTU` documents),
`TunAdapter.MTU() = getSupportedMTU(stored)` lies in `[1280, MaximumMTU()]` and
equals the stored value when that is already in the range; with a maximum of
65535 the inputs 500, 1280, 9000, 100000 give 1280, 1280, 9000, 65535. -/
theorem C6_MTU_clamped (d : platformDefaultParameters) (tun : TunAdapter)
    (hmax : 1280 ≤ MaximumMTU d) :
    tun.MTU d = getSupportedMTU d tun.mtu ∧
    1280 ≤ tun.MTU d ∧ tun.MTU d ≤ MaximumMTU d ∧
    (1280 ≤ tun.mtu → tun.mtu ≤ MaximumMTU d → tun.MTU d = tun.mtu) ∧
    (MaximumMTU d = 65535 →
      getSupportedMTU d 500 = 1280 ∧ getSupportedMTU d 1280 = 1280 ∧
      getSupportedMTU d 9000 = 9000 ∧ getSupportedMTU d 100000 = 65535) := by
  unfold TunAdapter.MTU getSupportedMTU
  refine ⟨rfl, ?_, ?_, ?_, ?_⟩
  · split
    · exact le_rfl
    · split
      · exact hmax
      · omega
  · split
    · exact hmax
    · split
      · exact le_rfl
      · omega
  · intro h1 h2
    rw [if_neg (by omega), if_neg (by omega)]
  · intro h
    simp [h]

/-- C6 at concrete inputs: a stored MTU of 100000 under a platform maximum of
65535. -/
theorem C6_MTU_clamped_witness :
    (1280 : Nat) ≤ MaximumMTU defaults65535 ∧
    ({ freshAdapter "auto" with mtu := 100000 } : TunAdapter).MTU defaults65535 = 65535 ∧
    getSupportedMTU defaults65535 500 = 1280 :=
  ⟨by decide,
   ((C6_MTU_clamped defaults65535 { freshAdapter "auto" with mtu := 100000 }
      (by decide)).1.trans (by decide)),
   ((C6_MTU_clamped defaults65535 (freshAdapter "auto") (by decide)).2.2.2.2 rfl).1⟩

/-- C7 (as the code has it): a `_start` on an adapter that is Open returns the
already-started error, launches no pump and changes no adapter state; so does a
second `_start` after a first one that succeeded with a real interface (any name
but "none" and "dummy"), which left the adapter Open.  A start with the name
"none" or "dummy" leaves `isOpen` false, and a second `_start` then succeeds
again and launches another outbound pump. -/
theorem C7_second_start (tun : TunAdapter) (w w2 : Windows) :
    (tun.isOpen = true → tun._start w2 = (tun, some .alreadyStarted, [])) ∧
    ((tun._start w).2.1 = none → tun.config.name ≠ "none" → tun.config.name ≠ "dummy" →
      (tun._start w).1.isOpen = true ∧
      (tun._start w).1._start w2 = ((tun._start w).1, some .alreadyStarted, [])) ∧
    (tun.isOpen = false → (tun.config.name = "none" ∨ tun.config.name = "dummy") →
      (tun._start w).2.1 = none ∧ (tun._start w).1.isOpen = false ∧
      ((tun._start w).1._start w2).2.1 = none ∧
      ((tun._start w).1._start w2).2.2 = [.logDebug, .goWrite]) := by
  refine ⟨start_open tun w2, ?_, ?_⟩
  · intro herr h1 h2
    have hopen : (tun._start w).1.isOpen = true := by
      cases ho : tun.isOpen with
      | true => rw [start_open tun w ho] at herr; simp at herr
      | false =>
        rw [start_enabled tun w ho h1 h2] at herr ⊢
        rcases hs : ({ tun with addr := tun.rwc.Address, subnet := tun.rwc.Subnet } :
            TunAdapter).setup w tun.config.name
          (startAddr { tun with addr := tun.rwc.Address, subnet := tun.rwc.Subnet } w)
          (startMTU tun) with ⟨t, _ | e, eff⟩
        · simp
        · rw [hs] at herr; simp at herr
    exact ⟨hopen, start_open _ w2 hopen⟩
  · intro ho hn
    have h2 := start_disabled
      { tun with addr := tun.rwc.Address, subnet := tun.rwc.Subnet, isEnabled := false }
      w2 ho hn
    rw [start_disabled tun w ho hn]
    refine ⟨rfl, ho, ?_, ?_⟩
    · simp only [h2]
    · simp only [h2]

/-- C7 at a concrete input: a fresh adapter named "auto" starts, and its second
start is refused. -/
theorem C7_second_start_witness :
    ((freshAdapter "auto")._start goodWindows).2.1 = none ∧
    ((freshAdapter "auto")._start goodWindows).1.isOpen = true ∧
    ((freshAdapter "auto")._start goodWindows).1._start goodWindows =
      (((freshAdapter "auto")._start goodWindows).1, some .alreadyStarted, []) :=
  ⟨by decide,
   ((C7_second_start (freshAdapter "auto") goodWindows goodWindows).2.1
      (by decide) (by decide) (by decide)).1,
   ((C7_second_start (freshAdapter "auto") goodWindows goodWindows).2.1
      (by decide) (by decide) (by decide)).2⟩

/-- C7, the claim as stated fails: after a successful start with the name "none"
(Disabled), a second `_start` returns no error and launches another outbound
pump. -/
theorem C7_counterexample :
    ((freshAdapter "none")._start goodWindows).2.1 = none ∧
    (((freshAdapter "none")._start goodWindows).1._start goodWindows).2.1 = none ∧
    (((freshAdapter "none")._start goodWindows).1._start goodWindows).2.1 ≠
      some .alreadyStarted ∧
    (((freshAdapter "none")._start goodWindows).1._start goodWindows).2.2 =
      [.logDebug, .goWrite] := by
  decide

/-- C8 (as the code has it): for every adapter state `_stop` returns no error,
whatever `Close` returns, and leaves `isOpen` false, storing that before it calls
`Close` on the interface handle if one is stored; it changes nothing else.  On an
adapter that is already Stopped it returns no error and leaves the state
unchanged, but as the handle is never cleared it calls `Close` on it again:
a second `_stop` makes the same calls as the first. -/
theorem C8_stop (tun : TunAdapter) :
    (tun._stop).2.1 = none ∧
    (tun._stop).1.isOpen = false ∧
    (tun._stop).1 = { tun with isOpen := false } ∧
    (∀ d, tun.iface = some d → (tun._stop).2.2 = [.storeIsOpen false, .ifaceClose d]) ∧
    (tun.iface = none → (tun._stop).2.2 = [.storeIsOpen false]) ∧
    (tun.isOpen = false → (tun._stop).1 = tun) ∧
    (tun._stop).1._stop = tun._stop := by
  unfold TunAdapter._stop
  cases hi : tun.iface with
  | none =>
    refine ⟨rfl, rfl, rfl, ?_, ?_, ?_, ?_⟩
    · intro d hd; simp at hd
    · intro _; rfl
    · intro ho
      cases tun
      simp_all
    · simp [hi]
  | some d =>
    refine ⟨rfl, rfl, rfl, ?_, ?_, ?_, ?_⟩
    · intro d' hd
      simp only [Option.some.injEq] at hd
      subst hd
      rfl
    · intro h; simp at h
    · intro ho
      cases tun
      simp_all
    · simp [hi]

/-- C8 at a concrete input: stopping an Open adapter whose `Close` fails. -/
theorem C8_stop_witness :
    (((freshAdapter "auto")._start goodWindows).1._stop).2.1 = none ∧
    (((freshAdapter "auto")._start goodWindows).1._stop).2.2 =
      [.storeIsOpen false, .ifaceClose nativeDevice] :=
  ⟨(C8_stop ((freshAdapter "auto")._start goodWindows).1).1,
   (C8_stop ((freshAdapter "auto")._start goodWindows).1).2.2.2.1 nativeDevice (by decide)⟩

/-- C8, the claim as stated fails: an adapter that was Open and has been stopped
is Stopped, yet a second `_stop` calls `Close` on the interface handle again. -/
theorem C8_counterexample :
    (((freshAdapter "auto")._start goodWindows).1._stop).1.isOpen = false ∧
    ((((freshAdapter "auto")._start goodWindows).1._stop).1._stop).2.2 =
      [.storeIsOpen false, .ifaceClose nativeDevice] := by
  decide

theorem start_setup_error (tun : TunAdapter) (w : Windows) (hclosed : tun.isOpen = false)
    (h1 : tun.config.name ≠ "none") (h2 : tun.config.name ≠ "dummy") (e : Error)
    (hs : ((startedAdapter tun).setup w tun.config.name
      (startAddr (startedAdapter tun) w) (startMTU tun)).2.1 = some e) :
    tun._start w = (startedAdapter tun).setup w tun.config.name
      (startAddr (startedAdapter tun) w) (startMTU tun) := by
  rw [start_enabled tun w hclosed h1 h2]
  unfold startedAdapter at hs ⊢
  rcases hr : ({ tun with addr := tun.rwc.Address, subnet := tun.rwc.Subnet } :
      TunAdapter).setup w tun.config.name
    (startAddr { tun with addr := tun.rwc.Address, subnet := tun.rwc.Subnet } w)
    (startMTU tun) with ⟨t, _ | e2, eff⟩
  · rw [hr] at hs; simp at hs
  · rfl

/-- C10 (as the code has it): on a Stopped adapter with a real interface name,
`_start` returns the error of the failing setup step: of the privilege step or of
interface creation (then nothing but `addr` and `subnet` has changed and no handle
is stored), of the ninth address attempt when all nine fail, or of MTU
configuration (then the created handle is stored in `iface` and nothing else has
changed).  In every failure `isOpen` stays false, `isEnabled` is left as it was,
no pump is launched, and `Close` is not called on any handle. -/
theorem C10_start_failure (tun : TunAdapter) (w : Windows)
    (hclosed : tun.isOpen = false)
    (h1 : tun.config.name ≠ "none") (h2 : tun.config.name ≠ "dummy") :
    (∀ e, w.doAsSystem = some e → tun._start w = (startedAdapter tun, some e, [])) ∧
    (∀ e, w.doAsSystem = none →
      w.createTUN (startIfname tun w) (toInt (startMTU tun)) = .error e →
      tun._start w = (startedAdapter tun, some e,
        [.createTUN (startIfname tun w) (toInt (startMTU tun))])) ∧
    (∀ d, w.doAsSystem = none →
      w.createTUN (startIfname tun w) (toInt (startMTU tun)) = .ok d →
      (∀ i, 1 ≤ i → i ≤ 9 →
        ((createdAdapter tun d).setupAddress w (startAddr (startedAdapter tun) w) i).1 ≠ none) →
      (tun._start w).2.1 =
        ((createdAdapter tun d).setupAddress w (startAddr (startedAdapter tun) w) 9).1 ∧
      (tun._start w).2.1 ≠ none ∧
      (tun._start w).1 = createdAdapter tun d) ∧
    (∀ d e eff1 eff2, w.doAsSystem = none →
      w.createTUN (startIfname tun w) (toInt (startMTU tun)) = .ok d →
      addressLoop (createdAdapter tun d) w (startAddr (startedAdapter tun) w) 9 1 =
        (none, eff1) →
      (createdAdapter tun d).setupMTU w (getSupportedMTU w.defaults (startMTU tun)) =
        (some e, eff2) →
      (tun._start w).2.1 = some e ∧ (tun._start w).1 = createdAdapter tun d) ∧
    (∀ e, (tun._start w).2.1 = some e →
      (tun._start w).1.isOpen = false ∧
      (tun._start w).1.isEnabled = tun.isEnabled ∧
      Effect.goRead ∉ (tun._start w).2.2 ∧ Effect.goWrite ∉ (tun._start w).2.2 ∧
      ∀ d, Effect.ifaceClose d ∉ (tun._start w).2.2) := by
  refine ⟨?_, ?_, ?_, ?_, ?_⟩
  · intro e hd
    have hs := setup_elevate_fail (startedAdapter tun) w tun.config.name
      (startAddr (startedAdapter tun) w) (startMTU tun) e hd
    rw [start_setup_error tun w hclosed h1 h2 e (by rw [hs]), hs]
  · intro e hd hc
    have hs := setup_create_fail (startedAdapter tun) w tun.config.name
      (startAddr (startedAdapter tun) w) (startMTU tun) e hd hc
    rw [start_setup_error tun w hclosed h1 h2 e (by rw [hs]), hs]
    rfl
  · intro d hd hc hall
    have hl := addressLoop_all_fail (createdAdapter tun d) w
      (startAddr (startedAdapter tun) w) 9 1 rfl (by omega) hall
    have h9 := hall 9 (by omega) le_rfl
    rcases ha : addressLoop (createdAdapter tun d) w (startAddr (startedAdapter tun) w) 9 1
      with ⟨_ | e, eff⟩
    · rw [ha] at hl
      exact absurd hl.symm h9
    · rw [ha] at hl
      have hs := setup_address_fail (startedAdapter tun) w tun.config.name
        (startAddr (startedAdapter tun) w) (startMTU tun) d e eff hd hc ha
      rw [start_setup_error tun w hclosed h1 h2 e hs.2, hs.2]
      exact ⟨hl, by simp, hs.1⟩
  · intro d e eff1 eff2 hd hc ha hm
    have hs := setup_mtu_fail (startedAdapter tun) w tun.config.name
      (startAddr (startedAdapter tun) w) (startMTU tun) d e eff1 eff2 hd hc ha hm
    rw [start_setup_error tun w hclosed h1 h2 e hs.2]
    exact ⟨hs.2, hs.1⟩
  · intro e herr
    have hst := setup_state (startedAdapter tun) w tun.config.name
      (startAddr (startedAdapter tun) w) (startMTU tun)
    have hef := setup_effects (startedAdapter tun) w tun.config.name
      (startAddr (startedAdapter tun) w) (startMTU tun)
    have hse : ((startedAdapter tun).setup w tun.config.name
        (startAddr (startedAdapter tun) w) (startMTU tun)).2.1 = some e := by
      rw [start_enabled tun w hclosed h1 h2] at herr
      unfold startedAdapter
      rcases hr : ({ tun with addr := tun.rwc.Address, subnet := tun.rwc.Subnet } :
          TunAdapter).setup w tun.config.name
        (startAddr { tun with addr := tun.rwc.Address, subnet := tun.rwc.Subnet } w)
        (startMTU tun) with ⟨t, _ | e2, eff⟩
      · rw [hr] at herr; simp at herr
      · rw [hr] at herr; simpa using herr
    rw [start_setup_error tun w hclosed h1 h2 e hse]
    obtain ⟨s1, s2, -, -, -⟩ := hst
    refine ⟨by rw [s1]; exact hclosed, s2, ?_, ?_, ?_⟩
    · intro hm; exact (hef _ hm).1 rfl
    · intro hm; exact (hef _ hm).2.1 rfl
    · intro d hm; exact (hef _ hm).2.2 d rfl

/-- C10 at concrete inputs: interface creation fails; the interface is created
but is not a `*NativeTun`, so all nine address attempts fail; the address is set but
the MTU cannot be configured. -/
theorem C10_start_failure_witness :
    (freshAdapter "auto")._start createFailWindows =
      (startedAdapter (freshAdapter "auto"), some (.os 5), [.createTUN "auto" 9000]) ∧
    (((freshAdapter "auto")._start addressFailWindows).2.1 = some .noNativeTUN ∧
      ((freshAdapter "auto")._start addressFailWindows).1 =
        createdAdapter (freshAdapter "auto") foreignDevice) ∧
    (((freshAdapter "auto")._start mtuFailWindows).2.1 = some (.os 87) ∧
      ((freshAdapter "auto")._start mtuFailWindows).1 =
        createdAdapter (freshAdapter "auto") nativeDevice) :=
  ⟨(C10_start_failure (freshAdapter "auto") createFailWindows rfl (by decide)
      (by decide)).2.1 (.os 5) rfl rfl,
   ⟨((C10_start_failure (freshAdapter "auto") addressFailWindows rfl (by decide)
      (by decide)).2.2.1 foreignDevice rfl rfl (fun i _ _ => by
        simp [TunAdapter.setupAddress, createdAdapter, startedAdapter, freshAdapter,
          foreignDevice, deviceName])).1.trans (by decide),
    ((C10_start_failure (freshAdapter "auto") addressFailWindows rfl (by decide)
      (by decide)).2.2.1 foreignDevice rfl rfl (fun i _ _ => by
        simp [TunAdapter.setupAddress, createdAdapter, startedAdapter, freshAdapter,
          foreignDevice, deviceName])).2.2⟩,
   (C10_start_failure (freshAdapter "auto") mtuFailWindows rfl (by decide)
      (by decide)).2.2.2.1 nativeDevice (.os 87) [.setIPAddresses]
        [.forceMTU 9000, .ipfamilySet] rfl rfl (by decide) (by decide)⟩

/-- C10, the claim as stated fails: when address configuration fails after the
interface was created, `_start` returns the error but the created handle is still
held by the adapter and was never closed. -/
theorem C10_counterexample :
    ((freshAdapter "auto")._start addressFailWindows).2.1 = some .noNativeTUN ∧
    ((freshAdapter "auto")._start addressFailWindows).1.iface = some foreignDevice ∧
    Effect.ifaceClose foreignDevice ∉ ((freshAdapter "auto")._start addressFailWindows).2.2 := by
  decide

end tun

end RiVMesh
